import Mathlib

set_option maxHeartbeats 1000000

/-!
Verification of the miro-mcp server (a line-delimited JSON-RPC tool server
wrapping the Miro REST API) against its natural-language specification.

The Python sources are shallowly embedded: Python runtime values become the
inductive `PyVal`, machine floats become exact rationals (no claim depends on
rounding), fallible code returns `Except PyErr`, and the process-wide mutable
state (the lazy client session and the on-disk token file) is threaded
explicitly.  External collaborators (the vendor SDK, the HTTP transport, the
environment) enter as oracle fields of `Env` / `ApiOracle`.
-/

/-- Kind of a raised Python exception; the source distinguishes except-clauses
by class (`JSONDecodeError`/`KeyError` in `_load_tokens`, `AttributeError` in
`ungroup_shapes`), so the kind is carried alongside the `str(e)` message. -/
inductive PyErrKind where
  | valueError
  | keyError
  | typeError
  | attributeError
  | jsonDecodeError
  | other
  deriving Repr, DecidableEq

/-- A raised Python exception: its class kind and its `str(e)` rendering. -/
structure PyErr where
  kind : PyErrKind
  msg : String
  deriving Repr, DecidableEq

/-- Model of a Python runtime value as this program sees it: JSON scalars and
containers, datetimes, and SDK model objects.  An `obj` carries the data that
`convert_to_dict` probes reflectively: whether its type-string matches the
`typing` heuristic, the results of calling `model_dump(mode='json')` and
`model_dump()` when the attribute exists (`Option.none` inside = the call
raises), the result of a callable `dict` attribute, its `__dict__` entries
when present, and the result of `str()` on it (`Option.none` = raises). -/
inductive PyVal where
  | none
  | bool (b : Bool)
  | int (n : Int)
  | float (q : Rat)
  | str (s : String)
  | datetime (iso : String)
  | dict (entries : List (String × PyVal))
  | pyList (elems : List PyVal)
  | obj (typingType : Bool)
        (modelDump : Option (Option PyVal × Option PyVal))
        (dictMethod : Option (Option PyVal))
        (attrs : Option (List (String × PyVal)))
        (strRepr : Option String)
  deriving Repr

/-- Model of Python `str(v)`: identity on strings, canonical renderings for
scalars, an abstract rendering for containers, and the object's own
(possibly raising) `__str__` result for `obj`. -/
def pyStr : PyVal → Option String
  | .none => some "None"
  | .bool b => some (if b then "True" else "False")
  | .int n => some (toString n)
  | .float q => some (toString q)
  | .str s => some s
  | .datetime iso => some iso
  | .dict _ => some "<dict>"
  | .pyList _ => some "<list>"
  | .obj _ _ _ _ sr => sr

/-- Total rendering used to model f-string interpolation (where Python would
raise, an opaque placeholder is produced; no claim inspects that case). -/
def pyRepr (v : PyVal) : String :=
  (pyStr v).getD "<object>"

/-- Python truthiness of a value (`if v:`). -/
def pyTruthy : PyVal → Bool
  | .none => false
  | .bool b => b
  | .int n => n != 0
  | .float q => q != 0
  | .str s => s != ""
  | .datetime _ => true
  | .dict es => !es.isEmpty
  | .pyList l => !l.isEmpty
  | .obj _ _ _ _ _ => true

/-- Python subscript `v[k]` for a string key: `KeyError` when the key is
missing from a dict, `TypeError` when `v` is not a dict (`str(KeyError(k))`
renders with quotes, which the handlers surface verbatim). -/
def pyIndex (v : PyVal) (k : String) : Except PyErr PyVal :=
  match v with
  | .dict es =>
      match es.lookup k with
      | some r => .ok r
      | Option.none => .error ⟨.keyError, "'" ++ k ++ "'"⟩
  | _ => .error ⟨.typeError, "value is not subscriptable by string"⟩

/-- Python `v.get(k)` on a dict: missing keys and JSON-null values both
surface as Python `None` (json.loads maps null to None), so the result is a
plain `PyVal` where `.none` means None; a non-dict raises AttributeError. -/
def pyGet (v : PyVal) (k : String) : Except PyErr PyVal :=
  match v with
  | .dict es => .ok ((es.lookup k).getD .none)
  | _ => .error ⟨.attributeError, "object has no attribute " ++ "'" ++ "get" ++ "'"⟩

/-- Python `v.get(k, default)` on a dict: the default applies only when the
key is missing (an explicit null value is returned as None). -/
def pyGetD (v : PyVal) (k : String) (default : PyVal) : Except PyErr PyVal :=
  match v with
  | .dict es => .ok ((es.lookup k).getD default)
  | _ => .error ⟨.attributeError, "object has no attribute " ++ "'" ++ "get" ++ "'"⟩

/-- Python `float(v)`: numbers (and bools) coerce. The model folds every other
case to TypeError; Python additionally parses numeric strings, a path no
claim exercises (every claim's coordinate arguments are numeric or absent,
and validation precedes coercion). -/
def pyFloat : PyVal → Except PyErr Rat
  | .bool b => .ok (if b then 1 else 0)
  | .int n => .ok n
  | .float q => .ok q
  | .str _ => .error ⟨.valueError, "could not convert string to float"⟩
  | _ => .error ⟨.typeError, "float() argument must be a string or a real number"⟩

mutual

/-- Python `==` between values: numeric cross-type equality (ints, floats and
bools compare by value), structural equality on containers; distinct objects
compare by identity and are modeled as never equal. -/
def pyEq : PyVal → PyVal → Bool
  | .none, .none => true
  | .bool a, .bool b => a == b
  | .bool a, .int b => (if a then (1 : Int) else 0) == b
  | .bool a, .float b => (if a then (1 : Rat) else 0) == b
  | .int a, .bool b => a == (if b then (1 : Int) else 0)
  | .float a, .bool b => a == (if b then (1 : Rat) else 0)
  | .int a, .int b => a == b
  | .int a, .float b => (a : Rat) == b
  | .float a, .int b => a == (b : Rat)
  | .float a, .float b => a == b
  | .str a, .str b => a == b
  | .datetime a, .datetime b => a == b
  | .dict a, .dict b => pyEqEntries a b
  | .pyList a, .pyList b => pyEqList a b
  | _, _ => false

def pyEqList : List PyVal → List PyVal → Bool
  | [], [] => true
  | a :: as_, b :: bs => pyEq a b && pyEqList as_ bs
  | _, _ => false

def pyEqEntries : List (String × PyVal) → List (String × PyVal) → Bool
  | [], [] => true
  | (ka, va) :: as_, (kb, vb) :: bs => ka == kb && pyEq va vb && pyEqEntries as_ bs
  | _, _ => false

end

mutual

/-- miro_client.convert_to_dict, lines 15-71: the layered reflective
serializer.  Each Python check maps onto the constructor data: the None
check, the `typing` type-string heuristic (whose `return str(obj)` at line 22
is the one unguarded raise site), the `model_dump(mode='json')` /
`model_dump()` / `dict()` probes (successful results are returned verbatim,
without recursion), scalar and datetime passthrough, recursive mapping and
sequence conversion, the `__dict__` walk with per-field fallbacks, and the
final `str(obj)` fallback guarded by `except: return None`. -/
def convert_to_dict : PyVal → Except PyErr PyVal
  | .none => .ok .none
  | .bool b => .ok (.bool b)
  | .int n => .ok (.int n)
  | .float q => .ok (.float q)
  | .str s => .ok (.str s)
  | .datetime iso => .ok (.str iso)
  | .dict entries =>
      match convertEntries entries with
      | .ok es => .ok (.dict es)
      | .error e => .error e
  | .pyList elems =>
      match convertElems elems with
      | .ok es => .ok (.pyList es)
      | .error e => .error e
  | .obj typingType modelDump dictMethod attrs strRepr =>
      if typingType then
        match strRepr with
        | some s => .ok (.str s)
        | Option.none => .error ⟨.typeError, "__str__ raised"⟩
      else
        match modelDump with
        | some (some v, _) => .ok v
        | some (Option.none, some v) => .ok v
        | some (Option.none, Option.none) => convertAfterDump dictMethod attrs strRepr
        | Option.none => convertAfterDump dictMethod attrs strRepr

/-- The tail of convert_to_dict after both model_dump probes have failed or
the attribute is absent: the `dict()` probe, the `__dict__` walk and the
final string fallback (lines 34-71). -/
def convertAfterDump (dictMethod : Option (Option PyVal))
    (attrs : Option (List (String × PyVal))) (strRepr : Option String) :
    Except PyErr PyVal :=
  match dictMethod with
  | some (some v) => .ok v
  | _ =>
    match attrs with
    | some kvs => .ok (.dict (convertAttrList kvs))
    | Option.none =>
      match strRepr with
      | some s => .ok (.str s)
      | Option.none => .ok .none

/-- The `__dict__` loop of convert_to_dict, lines 54-64: private names are
skipped (except the dead `__class__` allowance), a field that fails to
convert falls back to `str(v)`, and if that also fails the field is dropped;
the loop itself never raises. -/
def convertAttrList : List (String × PyVal) → List (String × PyVal)
  | [] => []
  | (k, v) :: rest =>
      if !k.startsWith "_" || k == "__class__" then
        match convert_to_dict v with
        | .ok j => (k, j) :: convertAttrList rest
        | .error _ =>
          match pyStr v with
          | some s => (k, .str s) :: convertAttrList rest
          | Option.none => convertAttrList rest
      else convertAttrList rest

/-- The list/tuple/set comprehension of convert_to_dict, line 50: a raise in
any element propagates. -/
def convertElems : List PyVal → Except PyErr (List PyVal)
  | [] => .ok []
  | v :: rest =>
      match convert_to_dict v with
      | .error e => .error e
      | .ok j =>
        match convertElems rest with
        | .error e => .error e
        | .ok tl => .ok (j :: tl)

/-- The dict comprehension of convert_to_dict, line 47: keys are preserved
verbatim, a raise in any value propagates. -/
def convertEntries : List (String × PyVal) → Except PyErr (List (String × PyVal))
  | [] => .ok []
  | (k, v) :: rest =>
      match convert_to_dict v with
      | .error e => .error e
      | .ok j =>
        match convertEntries rest with
        | .error e => .error e
        | .ok tl => .ok ((k, j) :: tl)

end

mutual

/-- JSON-serializability of a value: exactly the values `json.dumps`
accepts (scalars, strings, and containers thereof; datetimes and objects are
rejected). -/
def isJson : PyVal → Bool
  | .none => true
  | .bool _ => true
  | .int _ => true
  | .float _ => true
  | .str _ => true
  | .datetime _ => false
  | .dict entries => isJsonEntries entries
  | .pyList elems => isJsonList elems
  | .obj _ _ _ _ _ => false

def isJsonList : List PyVal → Bool
  | [] => true
  | v :: rest => isJson v && isJsonList rest

def isJsonEntries : List (String × PyVal) → Bool
  | [] => true
  | (_, v) :: rest => isJson v && isJsonEntries rest

end

/-- The model-dump results of an obj, when successful, are JSON-serializable. -/
def mdOk : Option (Option PyVal × Option PyVal) → Bool
  | some (some v, _) => isJson v
  | some (Option.none, some v) => isJson v
  | _ => true

/-- The dict-method result of an obj, when successful, is JSON-serializable. -/
def dmOk : Option (Option PyVal) → Bool
  | some (some v) => isJson v
  | _ => true

mutual

/-- Inputs on which the serializer is guaranteed to return JSON: no
typing-marked objects (whose unguarded `str()` could raise), and every
successful dump-method result is itself JSON-serializable (such results are
passed through unconverted). -/
def dumpSafe : PyVal → Bool
  | .none => true
  | .bool _ => true
  | .int _ => true
  | .float _ => true
  | .str _ => true
  | .datetime _ => true
  | .dict entries => dumpSafeEntries entries
  | .pyList elems => dumpSafeList elems
  | .obj typingType modelDump dictMethod attrs _strRepr =>
      (match modelDump with
       | some (some v, _) => isJson v
       | some (Option.none, some v) => isJson v
       | _ => true) &&
      (match dictMethod with
       | some (some v) => isJson v
       | _ => true) &&
      (match attrs with
       | some kvs => dumpSafeEntries kvs
       | Option.none => true) &&
      !typingType

def dumpSafeList : List PyVal → Bool
  | [] => true
  | v :: rest => dumpSafe v && dumpSafeList rest

def dumpSafeEntries : List (String × PyVal) → Bool
  | [] => true
  | (_, v) :: rest => dumpSafe v && dumpSafeEntries rest

end

/-- The attribute dictionary of an obj, when present, is dump-safe. -/
def atOk : Option (List (String × PyVal)) → Bool
  | some kvs => dumpSafeEntries kvs
  | Option.none => true

mutual

theorem dumpSafe_ok (v : PyVal) (h : dumpSafe v = true) :
    ∃ j, convert_to_dict v = .ok j ∧ isJson j = true := by
  cases v with
  | none => exact ⟨.none, rfl, rfl⟩
  | bool b => exact ⟨.bool b, rfl, rfl⟩
  | int n => exact ⟨.int n, rfl, rfl⟩
  | float q => exact ⟨.float q, rfl, rfl⟩
  | str s => exact ⟨.str s, rfl, rfl⟩
  | datetime iso => exact ⟨.str iso, rfl, rfl⟩
  | dict entries =>
      have h2 : dumpSafeEntries entries = true := h
      obtain ⟨es, he, hj⟩ := dumpSafe_entries_ok entries h2
      refine ⟨.dict es, ?_, by simpa [isJson] using hj⟩
      show (match convertEntries entries with
            | .ok es => Except.ok (PyVal.dict es)
            | .error e => Except.error e) = Except.ok (PyVal.dict es)
      rw [he]
  | pyList elems =>
      have h2 : dumpSafeList elems = true := h
      obtain ⟨es, he, hj⟩ := dumpSafe_list_ok elems h2
      refine ⟨.pyList es, ?_, by simpa [isJson] using hj⟩
      show (match convertElems elems with
            | .ok es => Except.ok (PyVal.pyList es)
            | .error e => Except.error e) = Except.ok (PyVal.pyList es)
      rw [he]
  | obj t md dm at_ sr =>
      rw [dumpSafe.eq_def] at h
      have h' : (((mdOk md && dmOk dm) && atOk at_) && !t) = true := h
      cases t with
      | true => simp at h'
      | false =>
          simp only [Bool.and_eq_true, Bool.not_false, and_true] at h'
          obtain ⟨⟨hmd, hdm⟩, hat⟩ := h'
          cases md with
          | none => exact afterDump_ok dm at_ sr hdm hat
          | some p =>
              obtain ⟨mdj, mdp⟩ := p
              cases mdj with
              | some v => exact ⟨v, rfl, hmd⟩
              | none =>
                  cases mdp with
                  | some w => exact ⟨w, rfl, hmd⟩
                  | none => exact afterDump_ok dm at_ sr hdm hat
  termination_by sizeOf v

theorem afterDump_ok (dm : Option (Option PyVal)) (at_ : Option (List (String × PyVal)))
    (sr : Option String)
    (hdm : dmOk dm = true) (hat : atOk at_ = true) :
    ∃ j, convertAfterDump dm at_ sr = .ok j ∧ isJson j = true := by
  cases at_ with
  | some kvs =>
      cases dm with
      | none =>
          exact ⟨.dict (convertAttrList kvs), rfl,
            by simpa [isJson] using attrList_json kvs hat⟩
      | some dv =>
          cases dv with
          | none =>
              exact ⟨.dict (convertAttrList kvs), rfl,
                by simpa [isJson] using attrList_json kvs hat⟩
          | some v => exact ⟨v, rfl, hdm⟩
  | none =>
      cases dm with
      | none =>
          cases sr with
          | some s => exact ⟨.str s, rfl, rfl⟩
          | none => exact ⟨.none, rfl, rfl⟩
      | some dv =>
          cases dv with
          | none =>
              cases sr with
              | some s => exact ⟨.str s, rfl, rfl⟩
              | none => exact ⟨.none, rfl, rfl⟩
          | some v => exact ⟨v, rfl, hdm⟩
  termination_by 1 + sizeOf at_

theorem attrList_json (l : List (String × PyVal)) (h : dumpSafeEntries l = true) :
    isJsonEntries (convertAttrList l) = true := by
  match l, h with
  | [], _ => rfl
  | (k, v) :: rest, h =>
      have h' : (dumpSafe v && dumpSafeEntries rest) = true := h
      simp only [Bool.and_eq_true] at h'
      obtain ⟨j, hv, hjv⟩ := dumpSafe_ok v h'.1
      have htl := attrList_json rest h'.2
      show isJsonEntries (if !k.startsWith "_" || k == "__class__" then
              match convert_to_dict v with
              | .ok j => (k, j) :: convertAttrList rest
              | .error _ =>
                match pyStr v with
                | some s => (k, PyVal.str s) :: convertAttrList rest
                | Option.none => convertAttrList rest
            else convertAttrList rest) = true
      by_cases hk : (!k.startsWith "_" || k == "__class__") = true
      · rw [if_pos hk, hv]
        show (isJson j && isJsonEntries (convertAttrList rest)) = true
        rw [hjv, htl]
        rfl
      · rw [if_neg hk]
        exact htl
  termination_by sizeOf l

theorem dumpSafe_list_ok (l : List PyVal) (h : dumpSafeList l = true) :
    ∃ es, convertElems l = .ok es ∧ isJsonList es = true := by
  match l, h with
  | [], _ => exact ⟨[], rfl, rfl⟩
  | v :: rest, h =>
      have h' : (dumpSafe v && dumpSafeList rest) = true := h
      simp only [Bool.and_eq_true] at h'
      obtain ⟨j, hv, hjv⟩ := dumpSafe_ok v h'.1
      obtain ⟨es, he, hje⟩ := dumpSafe_list_ok rest h'.2
      refine ⟨j :: es, ?_, ?_⟩
      · show (match convert_to_dict v with
              | .error e => Except.error e
              | .ok j =>
                match convertElems rest with
                | .error e => Except.error e
                | .ok tl => Except.ok (j :: tl)) = Except.ok (j :: es)
        rw [hv, he]
      · show (isJson j && isJsonList es) = true
        rw [hjv, hje]
        rfl
  termination_by sizeOf l

theorem dumpSafe_entries_ok (l : List (String × PyVal)) (h : dumpSafeEntries l = true) :
    ∃ es, convertEntries l = .ok es ∧ isJsonEntries es = true := by
  match l, h with
  | [], _ => exact ⟨[], rfl, rfl⟩
  | (k, v) :: rest, h =>
      have h' : (dumpSafe v && dumpSafeEntries rest) = true := h
      simp only [Bool.and_eq_true] at h'
      obtain ⟨j, hv, hjv⟩ := dumpSafe_ok v h'.1
      obtain ⟨es, he, hje⟩ := dumpSafe_entries_ok rest h'.2
      refine ⟨(k, j) :: es, ?_, ?_⟩
      · show (match convert_to_dict v with
              | .error e => Except.error e
              | .ok j =>
                match convertEntries rest with
                | .error e => Except.error e
                | .ok tl => Except.ok ((k, j) :: tl)) = Except.ok ((k, j) :: es)
        rw [hv, he]
      · show (isJson j && isJsonEntries es) = true
        rw [hjv, hje]
        rfl
  termination_by sizeOf l

end

/-! ## Tool registry (src/tool_registry.py and the register_tool calls in src/tools/) -/

/-- The nested `items` spec of an array-typed field (group_tools line 15). -/
structure ItemSpec where
  type : String
  deriving Repr, DecidableEq

/-- A field spec dict as the tools modules write them: type, description,
optional enum, optional items, optional required flag (absent when the
registration omits the key). -/
structure FieldSpec where
  type : String
  description : String
  enum : Option (List String) := Option.none
  items : Option ItemSpec := Option.none
  required : Option Bool := Option.none
  deriving Repr, DecidableEq

/-- tool_registry.register_tool line 8:
`required = [k for k, v in parameters.items() if v.get('required', False)]` —
the flag defaults to False when absent. -/
def derivedRequired (parameters : List (String × FieldSpec)) : List String :=
  (parameters.filter (fun kv => kv.2.required.getD false)).map (fun kv => kv.1)

/-- Modelled from the spec: the spec's derivation rule — `required` is the
properties *not marked optional*, with the flag defaulting to *true* when
absent, in insertion order.  Kept beside `derivedRequired` (the code's rule)
to compare the two. -/
def specRequired (parameters : List (String × FieldSpec)) : List String :=
  (parameters.filter (fun kv => kv.2.required.getD true)).map (fun kv => kv.1)

/-- The inputSchema dict built by register_tool (lines 13-17). -/
structure InputSchema where
  type : String
  properties : List (String × FieldSpec)
  required : List String
  deriving Repr, DecidableEq

/-- The descriptor dict stored in TOOLS (lines 10-18). -/
structure ToolDescriptor where
  name : String
  description : String
  inputSchema : InputSchema
  deriving Repr, DecidableEq

/-- tool_registry.register_tool, lines 6-18: name-keyed registration into the
insertion-ordered TOOLS dict (re-registration replaces in place, keeping the
original position, as Python dict assignment does). -/
def register_tool (tools : List (String × ToolDescriptor)) (name description : String)
    (parameters : List (String × FieldSpec)) : List (String × ToolDescriptor) :=
  let desc : ToolDescriptor :=
    { name := name
      description := description
      inputSchema :=
        { type := "object"
          properties := parameters
          required := derivedRequired parameters } }
  if (tools.lookup name).isSome then
    tools.map (fun kv => if kv.1 = name then (name, desc) else kv)
  else tools ++ [(name, desc)]

/-- shape_tools lines 5-55: the create_shape registration parameters. -/
def createShapeParams : List (String × FieldSpec) :=
  [ ("board_id", { type := "string", description := "The ID of the board" })
  , ("shape_type",
      { type := "string"
        description := "Type of shape: rectangle, circle, triangle, star, arrow, etc."
        enum := some ["rectangle", "circle", "triangle", "star", "arrow", "rhombus",
                      "octagon", "hexagon"] })
  , ("x", { type := "number", description := "X coordinate of the shape position" })
  , ("y", { type := "number", description := "Y coordinate of the shape position" })
  , ("width", { type := "number", description := "Width of the shape" })
  , ("height", { type := "number", description := "Height of the shape" })
  , ("fillColor",
      { type := "string", description := "Fill color in hex format (e.g., #FF0000)"
        required := some false })
  , ("borderColor",
      { type := "string", description := "Border color in hex format (e.g., #000000)"
        required := some false })
  , ("borderWidth",
      { type := "number", description := "Border width in pixels"
        required := some false })
  , ("content",
      { type := "string", description := "Text content to display in the shape"
        required := some false }) ]

/-- shape_tools lines 57-110: the update_shape registration parameters. -/
def updateShapeParams : List (String × FieldSpec) :=
  [ ("board_id", { type := "string", description := "The ID of the board" })
  , ("item_id", { type := "string", description := "The ID of the shape item to update" })
  , ("x", { type := "number", description := "New X coordinate (optional)", required := some false })
  , ("y", { type := "number", description := "New Y coordinate (optional)", required := some false })
  , ("width", { type := "number", description := "New width (optional)", required := some false })
  , ("height", { type := "number", description := "New height (optional)", required := some false })
  , ("fillColor",
      { type := "string", description := "New fill color in hex format (optional)"
        required := some false })
  , ("borderColor",
      { type := "string", description := "New border color in hex format (optional)"
        required := some false })
  , ("borderWidth",
      { type := "number", description := "New border width in pixels (optional)"
        required := some false })
  , ("content",
      { type := "string", description := "New text content (optional)"
        required := some false }) ]

/-- shape_tools lines 112-125: the delete_shape registration parameters. -/
def deleteShapeParams : List (String × FieldSpec) :=
  [ ("board_id", { type := "string", description := "The ID of the board" })
  , ("item_id", { type := "string", description := "The ID of the shape item to delete" }) ]

/-- group_tools lines 5-21: the group_shapes registration parameters. -/
def groupShapesParams : List (String × FieldSpec) :=
  [ ("board_id", { type := "string", description := "The ID of the board" })
  , ("item_ids",
      { type := "array"
        description := "List of item IDs to group together"
        items := some { type := "string" } }) ]

/-- group_tools lines 23-36: the ungroup_shapes registration parameters. -/
def ungroupShapesParams : List (String × FieldSpec) :=
  [ ("board_id", { type := "string", description := "The ID of the board" })
  , ("group_id", { type := "string", description := "The ID of the group/frame to ungroup" }) ]

/-- auth_tools lines 5-9: get_auth_url registers no parameters. -/
def getAuthUrlParams : List (String × FieldSpec) := []

/-- auth_tools lines 11-20: the exchange_auth_code registration parameters. -/
def exchangeAuthCodeParams : List (String × FieldSpec) :=
  [ ("code",
      { type := "string"
        description := "The authorization code received from Miro OAuth callback" }) ]

/-- board_tools lines 5-14: the get_board registration parameters. -/
def getBoardParams : List (String × FieldSpec) :=
  [ ("board_id", { type := "string", description := "The ID of the board" }) ]

/-- The TOOLS registry after module import (server.py line 7 imports
shape_tools, group_tools, auth_tools, board_tools in that order, so the
registrations run in that order). -/
def TOOLS : List (String × ToolDescriptor) :=
  let t0 : List (String × ToolDescriptor) := []
  let t1 := register_tool t0 "create_shape" "Create a shape on a Miro board" createShapeParams
  let t2 := register_tool t1 "update_shape" "Update properties of an existing shape" updateShapeParams
  let t3 := register_tool t2 "delete_shape" "Delete a shape from a board" deleteShapeParams
  let t4 := register_tool t3 "group_shapes" "Group multiple shapes together on a board" groupShapesParams
  let t5 := register_tool t4 "ungroup_shapes" "Ungroup shapes by removing them from a group/frame" ungroupShapesParams
  let t6 := register_tool t5 "get_auth_url" "Get the OAuth 2.0 authorization URL to authenticate with Miro" getAuthUrlParams
  let t7 := register_tool t6 "exchange_auth_code" "Exchange an authorization code for an access token" exchangeAuthCodeParams
  register_tool t7 "get_board" "Get information about a Miro board including metadata, name, description, and settings" getBoardParams

/-! ## Configuration (src/config.py) -/

/-- The environment-derived configuration: os.getenv gives None when the
variable is absent; the redirect URL has a literal default. -/
structure Config where
  MIRO_CLIENT_ID : Option String
  MIRO_CLIENT_SECRET : Option String
  MIRO_REDIRECT_URL : String := "http://localhost:8080/callback"
  deriving Repr, DecidableEq

/-- Python truthiness of an os.getenv result (None and empty string falsy). -/
def optStrTruthy : Option String → Bool
  | some s => s != ""
  | Option.none => false

/-- config.validate_config, lines 17-22. -/
def validate_config (cfg : Config) : Except PyErr Unit :=
  if !optStrTruthy cfg.MIRO_CLIENT_ID then
    .error ⟨.valueError, "MIRO_CLIENT_ID environment variable is required"⟩
  else if !optStrTruthy cfg.MIRO_CLIENT_SECRET then
    .error ⟨.valueError, "MIRO_CLIENT_SECRET environment variable is required"⟩
  else .ok ()

/-! ## Token store (miro_client._load_tokens / _save_tokens) -/

/-- On-disk state of the token file: absent, unparsable (json.load raises
JSONDecodeError) or holding a parsed JSON value. -/
inductive FileState where
  | absent
  | unparsable
  | parsed (v : PyVal)
  deriving Repr

/-- Conflate a JSON-null value with Python None for session fields (an
assignment of a null dict value stores None). -/
def noneAsOpt : Option PyVal → Option PyVal
  | some .none => Option.none
  | x => x

/-- miro_client.MiroClient._load_tokens, lines 86-99.  Returns the resulting
file state and the loaded (access, refresh) session fields, or the uncaught
exception.  A missing file returns immediately; JSONDecodeError and the
KeyError of a parsed dict without `access_token` are caught, the file is
unlinked and the fields reset; but a parsed NON-dict value makes the
subscript `tokens['access_token']` raise TypeError, which the except clause
`(json.JSONDecodeError, KeyError)` does not catch: the exception escapes and
the file is left in place. -/
def load_tokens (fs : FileState) : FileState × Except PyErr (Option PyVal × Option PyVal) :=
  match fs with
  | .absent => (.absent, .ok (Option.none, Option.none))
  | .unparsable => (.absent, .ok (Option.none, Option.none))
  | .parsed (.dict es) =>
      match es.lookup "access_token" with
      | Option.none => (.absent, .ok (Option.none, Option.none))
      | some av =>
          (.parsed (.dict es),
           .ok (noneAsOpt (some av), noneAsOpt (es.lookup "refresh_token")))
  | .parsed v =>
      (.parsed v, .error ⟨.typeError, "value is not subscriptable by string"⟩)

/-! ## Authenticated client (src/miro_client.py, class MiroClient) -/

/-- Output of MiroClient._format_style (lines 175-191): the snake_case style
dict sent on the wire.  border_width keeps the numeric value of
`str(float(value))` (the decimal rendering is immaterial to every claim). -/
structure StyleOut where
  fill_color : Option PyVal := Option.none
  fill_opacity : Option String := Option.none
  border_color : Option PyVal := Option.none
  border_opacity : Option String := Option.none
  border_width : Option Rat := Option.none
  deriving Repr

/-- The style dict built by shape_tools._build_style_dict: keys fillColor,
borderColor, borderWidth in insertion order (the only keys the handlers ever
pass to _format_style). -/
structure StyleIn where
  fillColor : Option PyVal := Option.none
  borderColor : Option PyVal := Option.none
  borderWidth : Option Rat := Option.none
  deriving Repr

/-- Python truthiness of the style dict (empty dict is falsy; a key is
present exactly when the corresponding field is set). -/
def styleInTruthy (st : StyleIn) : Bool :=
  st.fillColor.isSome || st.borderColor.isSome || st.borderWidth.isSome

/-- miro_client.MiroClient._format_style, lines 175-191, on the key set the
handlers supply.  fillColor/borderColor are renamed and each defaults its
paired opacity to "1.0" (the `not in style_clean` guards always hold because
no opacity key can pre-exist in the handler-built dict); borderWidth is
coerced by str(float(.)). -/
def format_style (style : StyleIn) : StyleOut :=
  let s0 : StyleOut := {}
  let s1 := match style.fillColor with
    | some v => { s0 with fill_color := some v, fill_opacity := some "1.0" }
    | Option.none => s0
  let s2 := match style.borderColor with
    | some v => { s1 with border_color := some v, border_opacity := some "1.0" }
    | Option.none => s1
  match style.borderWidth with
  | some q => { s2 with border_width := some q }
  | Option.none => s2

/-- The nested wire payload built by MiroClient._format_shape_data
(lines 193-222): data.shape (and data.content when truthy), position,
geometry, and the formatted style when truthy. -/
structure ShapeData where
  shape : PyVal
  content : Option PyVal
  x : Rat
  y : Rat
  width : Rat
  height : Rat
  style : Option StyleOut
  deriving Repr

/-- miro_client.MiroClient._format_shape_data, lines 193-222 (the handler
guarantees both position and both geometry keys, so the float() coercions
are already applied by the caller and carried as rationals). -/
def format_shape_data (shape_type : PyVal) (position geometry : Rat × Rat)
    (style : Option StyleIn) (content : PyVal) : ShapeData :=
  { shape := shape_type
    content := if pyTruthy content then some content else Option.none
    x := position.1
    y := position.2
    width := geometry.1
    height := geometry.2
    style :=
      match style with
      | some st => if styleInTruthy st then some (format_style st) else Option.none
      | Option.none => Option.none }

/-- The update_data payload built by MiroClient.update_shape (lines 250-271):
each top-level key is present exactly when the source adds it. -/
structure UpdateData where
  position : Option (Option Rat × Option Rat) := Option.none
  geometry : Option (Rat × Rat) := Option.none
  content : Option PyVal := Option.none
  style : Option StyleOut := Option.none
  deriving Repr

/-- The update_data construction of MiroClient.update_shape, lines 250-271.
The position sub-dict keeps only the keys present; the geometry branch reads
BOTH `geometry['width']` and `geometry['height']`, so a geometry dict missing
one of them raises KeyError ('width' is read first). -/
def build_update_data (position : Option (Option Rat × Option Rat))
    (geometry : Option (Option Rat × Option Rat)) (style : Option StyleIn)
    (content : PyVal) : Except PyErr UpdateData :=
  let posField : Option (Option Rat × Option Rat) :=
    match position with
    | some p => if p.1.isSome || p.2.isSome then some p else Option.none
    | Option.none => Option.none
  let geomField : Except PyErr (Option (Rat × Rat)) :=
    match geometry with
    | some g =>
        if g.1.isSome || g.2.isSome then
          match g.1 with
          | Option.none => .error ⟨.keyError, "'" ++ "width" ++ "'"⟩
          | some w =>
              match g.2 with
              | Option.none => .error ⟨.keyError, "'" ++ "height" ++ "'"⟩
              | some h => .ok (some (w, h))
        else .ok Option.none
    | Option.none => .ok Option.none
  match geomField with
  | .error e => .error e
  | .ok gf =>
      .ok { position := posField
            geometry := gf
            content := match content with
                       | .none => Option.none
                       | c => some c
            style :=
              match style with
              | some st => if styleInTruthy st then some (format_style st) else Option.none
              | Option.none => Option.none }

/-- The frame payload built by group_shapes (lines 354-361). -/
structure FrameData where
  title : String
  x : Rat
  y : Rat
  width : Rat
  height : Rat
  deriving Repr, DecidableEq

/-- The vendor SDK's REST sub-client (self._miro.api), as the oracle of the
methods this program calls.  Item ids travel as raw Python values. -/
structure ApiOracle where
  create_shape_item : PyVal → ShapeData → Except PyErr PyVal
  update_shape_item : PyVal → PyVal → UpdateData → Except PyErr PyVal
  delete_shape_item : PyVal → PyVal → Except PyErr PyVal
  get_shape_item : PyVal → PyVal → Except PyErr PyVal
  get_frame_item : PyVal → PyVal → Except PyErr PyVal
  get_items : PyVal → Except PyErr PyVal
  create_frame_item : PyVal → FrameData → Except PyErr PyVal
  update_item_position_or_parent : PyVal → PyVal → Option PyVal → Except PyErr PyVal
  delete_frame_item : PyVal → PyVal → Except PyErr PyVal

/-- A live miro_api.Miro SDK handle: its (possibly absent) tokens, the
authorization URL it constructs, the code-exchange oracle (returning the
tokens the vendor would set on the handle), and its REST sub-client. -/
structure LiveHandle where
  access_token : Option String
  refresh_token : Option String
  auth_url : String
  exchange : PyVal → Except PyErr (String × Option String)
  api : ApiOracle

/-- Truthiness of `self._miro and hasattr(self._miro, 'access_token') and
self._miro.access_token` for a present handle (the SDK always has the
attribute; None and empty string are falsy). -/
def handleTokenTruthy (h : LiveHandle) : Bool :=
  match h.access_token with
  | some s => s != ""
  | Option.none => false

/-- The MiroClient in-memory state (fields assigned in __init__, lines
74-84).  Stored tokens are raw loaded values (PyVal), since the token file
may hold arbitrary JSON. -/
structure Session where
  client_id : Option String
  client_secret : Option String
  redirect_url : String
  miro : Option LiveHandle
  stored_access : Option PyVal
  stored_refresh : Option PyVal

/-- Python truthiness of an optional stored token value. -/
def pyTruthyOpt : Option PyVal → Bool
  | some v => pyTruthy v
  | Option.none => false

/-- External collaborators of the client: the configuration, the SDK
constructor result (miro_api.Miro(...) — a fresh handle), and the HTTP GET
used by get_board (url, Authorization header value ↦ parsed JSON body;
raise_for_status failures surface as the oracle's error). -/
structure Env where
  cfg : Config
  mkMiro : LiveHandle
  http_get : String → String → Except PyErr PyVal

/-- miro_client.MiroClient.__init__, lines 74-84: validate the configuration,
then load stored tokens (both may raise; the raise escapes the constructor). -/
def MiroClient_init (env : Env) (fs : FileState) : FileState × Except PyErr Session :=
  match validate_config env.cfg with
  | .error e => (fs, .error e)
  | .ok _ =>
      match load_tokens fs with
      | (fs', .error e) => (fs', .error e)
      | (fs', .ok (a, r)) =>
          (fs', .ok { client_id := env.cfg.MIRO_CLIENT_ID
                      client_secret := env.cfg.MIRO_CLIENT_SECRET
                      redirect_url := env.cfg.MIRO_REDIRECT_URL
                      miro := Option.none
                      stored_access := a
                      stored_refresh := r })

/-- miro_client.MiroClient._save_tokens, lines 101-121: pick the live
handle's token pair when truthy, else the stored pair when truthy; only when
a pick exists is the file overwritten (refresh None is written as JSON null)
and the stored session fields updated. -/
def save_tokens (s : Session) (fs : FileState) : Session × FileState :=
  let pick : Option (PyVal × Option PyVal) :=
    match s.miro with
    | some h =>
        if handleTokenTruthy h then
          some (.str (h.access_token.getD ""), h.refresh_token.map PyVal.str)
        else if pyTruthyOpt s.stored_access then
          some ((s.stored_access.getD .none), s.stored_refresh)
        else Option.none
    | Option.none =>
        if pyTruthyOpt s.stored_access then
          some ((s.stored_access.getD .none), s.stored_refresh)
        else Option.none
  match pick with
  | Option.none => (s, fs)
  | some (a, r) =>
      ({ s with stored_access := some a, stored_refresh := r },
       .parsed (.dict [("access_token", a), ("refresh_token", r.getD .none)]))

/-- miro_client.MiroClient.get_auth_url, lines 123-130: constructs a fresh
SDK handle (discarding any previous one) and returns its auth_url. -/
def get_auth_url (env : Env) (s : Session) : Session × String :=
  let h := env.mkMiro
  ({ s with miro := some h }, h.auth_url)

/-- miro_client.MiroClient.exchange_code_for_token, lines 132-144: requires a
live handle (ValueError otherwise), exchanges the code (vendor rejection
propagates), persists the tokens, and returns the success dict. -/
def exchange_code_for_token (s : Session) (fs : FileState) (code : PyVal) :
    (Session × FileState) × Except PyErr PyVal :=
  match s.miro with
  | Option.none =>
      ((s, fs), .error ⟨.valueError,
        "Miro instance not initialized. Please call get_auth_url() first to start the OAuth flow."⟩)
  | some h =>
      match h.exchange code with
      | .error e => ((s, fs), .error e)
      | .ok (a, r) =>
          let h2 : LiveHandle := { h with access_token := some a, refresh_token := r }
          let s2 : Session := { s with miro := some h2 }
          let (s3, fs3) := save_tokens s2 fs
          ((s3, fs3),
           .ok (.dict [("success", .bool true),
                       ("message", .str "Successfully authenticated with Miro")]))

/-- miro_client.MiroClient.is_authenticated, lines 146-150: a truthy live
token, or a stored access token that `is not None`. -/
def is_authenticated (s : Session) : Bool :=
  (match s.miro with
   | some h => handleTokenTruthy h
   | Option.none => false) || s.stored_access.isSome

/-- miro_client.MiroClient._ensure_authenticated, lines 152-158. -/
def ensure_authenticated (s : Session) : Except PyErr Unit :=
  if is_authenticated s then .ok ()
  else .error ⟨.valueError,
    "Not authenticated. Please complete OAuth flow first. Use get_auth_url() to get authorization URL, then exchange_code_for_token() with the code."⟩

/-- miro_client.MiroClient._get_api, lines 160-173: authenticated sessions
without a truthy live token are rejected — with the re-authentication
message when a truthy stored token exists, the bare message otherwise. -/
def get_api (s : Session) : Except PyErr ApiOracle :=
  match ensure_authenticated s with
  | .error e => .error e
  | .ok _ =>
      let rejected : Except PyErr ApiOracle :=
        if pyTruthyOpt s.stored_access then
          .error ⟨.valueError,
            "Miro API client requires tokens to be set through OAuth flow. Please call get_auth_url() and exchange_code_for_token() to re-authenticate."⟩
        else .error ⟨.valueError, "Not authenticated. Please complete OAuth flow first."⟩
      match s.miro with
      | some h => if handleTokenTruthy h then .ok h.api else rejected
      | Option.none => rejected

/-- miro_client.MiroClient.create_shape, lines 224-237. -/
def create_shape (s : Session) (board_id shape_type : PyVal)
    (position geometry : Rat × Rat) (style : Option StyleIn) (content : PyVal) :
    Except PyErr PyVal :=
  match get_api s with
  | .error e => .error e
  | .ok api =>
      match api.create_shape_item board_id
          (format_shape_data shape_type position geometry style content) with
      | .error e => .error e
      | .ok result => convert_to_dict result

/-- miro_client.MiroClient.update_shape, lines 239-274. -/
def update_shape (s : Session) (board_id item_id : PyVal)
    (position geometry : Option (Option Rat × Option Rat))
    (style : Option StyleIn) (content : PyVal) : Except PyErr PyVal :=
  match get_api s with
  | .error e => .error e
  | .ok api =>
      match build_update_data position geometry style content with
      | .error e => .error e
      | .ok upd =>
          match api.update_shape_item board_id item_id upd with
          | .error e => .error e
          | .ok result => convert_to_dict result

/-- miro_client.MiroClient.delete_shape, lines 276-280. -/
def delete_shape (s : Session) (board_id item_id : PyVal) : Except PyErr PyVal :=
  match get_api s with
  | .error e => .error e
  | .ok api =>
      match api.delete_shape_item board_id item_id with
      | .error e => .error e
      | .ok _ =>
          .ok (.dict [("success", .bool true),
                      ("message", .str ("Shape " ++ pyRepr item_id ++ " deleted successfully"))])

/-- miro_client.MiroClient.get_board, lines 282-303: authenticated requirement
only; prefers the live token, falls back to the stored token, raises when
neither is truthy; issues a direct HTTP GET with a Bearer header and
normalizes the parsed response body. -/
def get_board (env : Env) (s : Session) (board_id : PyVal) : Except PyErr PyVal :=
  match ensure_authenticated s with
  | .error e => .error e
  | .ok _ =>
      let url := "https://api.miro.com/v2/boards/" ++ pyRepr board_id
      let tokenRes : Except PyErr String :=
        match s.miro with
        | some h =>
            if handleTokenTruthy h then .ok (h.access_token.getD "")
            else if pyTruthyOpt s.stored_access then .ok (pyRepr (s.stored_access.getD .none))
            else .error ⟨.valueError, "No access token available"⟩
        | Option.none =>
            if pyTruthyOpt s.stored_access then .ok (pyRepr (s.stored_access.getD .none))
            else .error ⟨.valueError, "No access token available"⟩
      match tokenRes with
      | .error e => .error e
      | .ok tok =>
          match env.http_get url ("Bearer " ++ tok) with
          | .error e => .error e
          | .ok body => convert_to_dict body

/-- Python `str(type(v))` as used in the unexpected-format error message. -/
def pyTypeStr : PyVal → String
  | .none => "<class 'NoneType'>"
  | .bool _ => "<class 'bool'>"
  | .int _ => "<class 'int'>"
  | .float _ => "<class 'float'>"
  | .str _ => "<class 'str'>"
  | .datetime _ => "<class 'datetime.datetime'>"
  | .dict _ => "<class 'dict'>"
  | .pyList _ => "<class 'list'>"
  | .obj _ _ _ _ _ => "<class 'object'>"

/-- Python iteration `for x in v`: lists iterate elements, dicts their keys,
strings their characters; other values raise TypeError. -/
def pyIterL : PyVal → Except PyErr (List PyVal)
  | .pyList l => .ok l
  | .dict es => .ok (es.map (fun kv => .str kv.1))
  | .str s => .ok (s.toList.map (fun c => .str c.toString))
  | _ => .error ⟨.typeError, "object is not iterable"⟩

/-- miro_client.MiroClient._extract_items_list, lines 322-330: normalize the
listing, return its `data` member when it is a dict carrying one, the value
itself when it is a list, and raise the unexpected-format ValueError
otherwise (the message names the type of the original argument). -/
def extract_items_list (all_items_result : PyVal) : Except PyErr PyVal :=
  match convert_to_dict all_items_result with
  | .error e => .error e
  | .ok allItems =>
      match allItems with
      | .dict es =>
          match es.lookup "data" with
          | some d => .ok d
          | Option.none =>
              .error ⟨.valueError,
                "Unexpected response format from API: " ++ pyTypeStr all_items_result⟩
      | .pyList l => .ok (.pyList l)
      | _ =>
          .error ⟨.valueError,
            "Unexpected response format from API: " ++ pyTypeStr all_items_result⟩

/-- The scan loop shared by _get_item_from_api (lines 317-319) and
ungroup_shapes (line 381): first item whose str(item.get('id','')) equals the
target string; a non-dict item makes `.get` raise AttributeError. -/
def find_item_by_id (items : List PyVal) (target : String) : Except PyErr (Option PyVal) :=
  match items with
  | [] => .ok Option.none
  | it :: rest =>
      match pyGetD it "id" (.str "") with
      | .error e => .error e
      | .ok idv =>
          if pyRepr idv == target then .ok (some it)
          else find_item_by_id rest target

/-- miro_client.MiroClient._get_item_from_api, lines 305-320: try the shape
endpoint, then the frame endpoint, then scan the full listing; raise
ValueError when the id matches nothing (the bare `except` clauses swallow
every failure of the two typed endpoints). -/
def get_item_from_api (api : ApiOracle) (board_id item_id : PyVal) : Except PyErr PyVal :=
  match api.get_shape_item board_id item_id with
  | .ok r => .ok r
  | .error _ =>
      match api.get_frame_item board_id item_id with
      | .ok r => .ok r
      | .error _ =>
          match api.get_items board_id with
          | .error e => .error e
          | .ok all_items =>
              match extract_items_list all_items with
              | .error e => .error e
              | .ok items_val =>
                  match pyIterL items_val with
                  | .error e => .error e
                  | .ok items =>
                      match find_item_by_id items (pyRepr item_id) with
                      | .error e => .error e
                      | .ok (some it) => .ok it
                      | .ok Option.none =>
                          .error ⟨.valueError,
                            "Item " ++ pyRepr item_id ++ " not found on board " ++ pyRepr board_id⟩

/-- The resolution loop of group_shapes, lines 336-339: each id resolved via
the three-tier lookup and normalized; any failure aborts the whole call. -/
def resolve_items (api : ApiOracle) (board_id : PyVal) :
    List PyVal → Except PyErr (List PyVal)
  | [] => .ok []
  | iid :: rest =>
      match get_item_from_api api board_id iid with
      | .error e => .error e
      | .ok item =>
          match convert_to_dict item with
          | .error e => .error e
          | .ok itd =>
              match resolve_items api board_id rest with
              | .error e => .error e
              | .ok tl => .ok (itd :: tl)

/-- A numeric board coordinate as compared and summed by the bounding-box
block.  Python would also admit uniformly-comparable non-numeric entries up
to the final float() coercion; the model raises at extraction, a difference
no claim observes. -/
def pyNumVal : PyVal → Except PyErr Rat
  | .bool b => .ok (if b then 1 else 0)
  | .int n => .ok n
  | .float q => .ok q
  | _ => .error ⟨.typeError, "unsupported operand type in min/max"⟩

/-- Traversal of a subscript over a list, failing at the first raise (the
list-comprehension semantics of lines 345-346). -/
def travPy (f : PyVal → Except PyErr PyVal) : List PyVal → Except PyErr (List PyVal)
  | [] => .ok []
  | v :: rest =>
      match f v with
      | .error e => .error e
      | .ok r =>
          match travPy f rest with
          | .error e => .error e
          | .ok tl => .ok (r :: tl)

/-- Traversal extracting one rational per element (the generator feeding
min/max), failing at the first raise. -/
def travQ (f : PyVal → Except PyErr Rat) : List PyVal → Except PyErr (List Rat)
  | [] => .ok []
  | v :: rest =>
      match f v with
      | .error e => .error e
      | .ok r =>
          match travQ f rest with
          | .error e => .error e
          | .ok tl => .ok (r :: tl)

/-- Traversal over zipped position/geometry pairs (lines 350-351). -/
def travQ2 (f : PyVal × PyVal → Except PyErr Rat) :
    List (PyVal × PyVal) → Except PyErr (List Rat)
  | [] => .ok []
  | v :: rest =>
      match f v with
      | .error e => .error e
      | .ok r =>
          match travQ2 f rest with
          | .error e => .error e
          | .ok tl => .ok (r :: tl)

/-- Python min over a realized sequence. -/
def pyMin : List Rat → Except PyErr Rat
  | [] => .error ⟨.valueError, "min() arg is an empty sequence"⟩
  | x :: xs => .ok (xs.foldl min x)

/-- Python max over a realized sequence. -/
def pyMax : List Rat → Except PyErr Rat
  | [] => .error ⟨.valueError, "max() arg is an empty sequence"⟩
  | x :: xs => .ok (xs.foldl max x)

/-- The bounding-box block of group_shapes, lines 344-361: positions and
geometries are extracted per item, min_x/min_y are the minima of the left and
top edges, max_x/max_y the maxima of `x + width` and `y + height`, and the
frame payload is positioned at the minimum corner and sized to the box. -/
def group_bounding_frame (items : List PyVal) : Except PyErr FrameData :=
  match travPy (fun it => pyIndex it "position") items with
  | .error e => .error e
  | .ok positions =>
  match travPy (fun it => pyIndex it "geometry") items with
  | .error e => .error e
  | .ok geometries =>
  match travQ (fun p =>
      match pyIndex p "x" with
      | .error e => .error e
      | .ok v => pyNumVal v) positions with
  | .error e => .error e
  | .ok xs =>
  match pyMin xs with
  | .error e => .error e
  | .ok min_x =>
  match travQ (fun p =>
      match pyIndex p "y" with
      | .error e => .error e
      | .ok v => pyNumVal v) positions with
  | .error e => .error e
  | .ok ys =>
  match pyMin ys with
  | .error e => .error e
  | .ok min_y =>
  match travQ2 (fun pg =>
      match pyIndex pg.1 "x" with
      | .error e => .error e
      | .ok xv =>
          match pyNumVal xv with
          | .error e => .error e
          | .ok x =>
              match pyIndex pg.2 "width" with
              | .error e => .error e
              | .ok wv =>
                  match pyNumVal wv with
                  | .error e => .error e
                  | .ok w => .ok (x + w)) (positions.zip geometries) with
  | .error e => .error e
  | .ok rights =>
  match pyMax rights with
  | .error e => .error e
  | .ok max_x =>
  match travQ2 (fun pg =>
      match pyIndex pg.1 "y" with
      | .error e => .error e
      | .ok yv =>
          match pyNumVal yv with
          | .error e => .error e
          | .ok y =>
              match pyIndex pg.2 "height" with
              | .error e => .error e
              | .ok hv =>
                  match pyNumVal hv with
                  | .error e => .error e
                  | .ok h => .ok (y + h)) (positions.zip geometries) with
  | .error e => .error e
  | .ok bottoms =>
  match pyMax bottoms with
  | .error e => .error e
  | .ok max_y =>
      .ok { title := "Group"
            x := min_x
            y := min_y
            width := max_x - min_x
            height := max_y - min_y }

/-- The reparenting loop of group_shapes, lines 367-368. -/
def reparentAll (api : ApiOracle) (board_id : PyVal) (item_ids : List PyVal)
    (frame_id : PyVal) : Except PyErr Unit :=
  match item_ids with
  | [] => .ok ()
  | iid :: rest =>
      match api.update_item_position_or_parent board_id iid (some frame_id) with
      | .error e => .error e
      | .ok _ => reparentAll api board_id rest frame_id

/-- miro_client.MiroClient.group_shapes, lines 332-370. -/
def group_shapes (s : Session) (board_id : PyVal) (item_ids : List PyVal) :
    Except PyErr PyVal :=
  match get_api s with
  | .error e => .error e
  | .ok api =>
      match resolve_items api board_id item_ids with
      | .error e => .error e
      | .ok items =>
          if items.isEmpty then .error ⟨.valueError, "No items found to group"⟩
          else
            match group_bounding_frame items with
            | .error e => .error e
            | .ok fd =>
                match api.create_frame_item board_id fd with
                | .error e => .error e
                | .ok frame_result =>
                    match convert_to_dict frame_result with
                    | .error e => .error e
                    | .ok frame =>
                        match pyIndex frame "id" with
                        | .error e => .error e
                        | .ok frame_id =>
                            match reparentAll api board_id item_ids frame_id with
                            | .error e => .error e
                            | .ok _ => .ok frame

/-- The parent filter of ungroup_shapes, lines 393-396: items whose truthy
`parent` carries an `id` equal to the group id (a non-dict item raises at
`.get`, a parent without `id` raises KeyError). -/
def filter_parented (group_id : PyVal) : List PyVal → Except PyErr (List PyVal)
  | [] => .ok []
  | it :: rest =>
      match pyGet it "parent" with
      | .error e => .error e
      | .ok par =>
          if pyTruthy par then
            match pyIndex par "id" with
            | .error e => .error e
            | .ok pid =>
                match filter_parented group_id rest with
                | .error e => .error e
                | .ok tl => .ok (if pyEq pid group_id then it :: tl else tl)
          else
            match filter_parented group_id rest with
            | .error e => .error e
            | .ok tl => .ok tl

/-- The unparenting loop of ungroup_shapes, lines 398-400. -/
def unparentAll (api : ApiOracle) (board_id : PyVal) :
    List PyVal → Except PyErr Unit
  | [] => .ok ()
  | it :: rest =>
      match pyIndex it "id" with
      | .error e => .error e
      | .ok iid =>
          match api.update_item_position_or_parent board_id iid Option.none with
          | .error e => .error e
          | .ok _ => unparentAll api board_id rest

/-- miro_client.MiroClient.ungroup_shapes, lines 372-404: resolve the frame
(`except AttributeError` falls back to a scan restricted by id; any other
failure is wrapped as a not-found ValueError), require the resolved item to
be frame-typed, unparent every item whose parent id equals the group id,
delete the frame, and report the count. -/
def ungroup_shapes (s : Session) (board_id group_id : PyVal) : Except PyErr PyVal :=
  match get_api s with
  | .error e => .error e
  | .ok api =>
      let frameRes : Except PyErr PyVal :=
        match api.get_frame_item board_id group_id with
        | .ok f => .ok f
        | .error e =>
            if e.kind = .attributeError then
              match api.get_items board_id with
              | .error e2 => .error e2
              | .ok all_items =>
                  match extract_items_list all_items with
                  | .error e2 => .error e2
                  | .ok items_val =>
                      match pyIterL items_val with
                      | .error e2 => .error e2
                      | .ok items =>
                          match find_item_by_id items (pyRepr group_id) with
                          | .error e2 => .error e2
                          | .ok found =>
                              let frame := found.getD .none
                              if pyTruthy frame then .ok frame
                              else .error ⟨.valueError,
                                "Frame " ++ pyRepr group_id ++ " not found on board " ++ pyRepr board_id⟩
            else .error ⟨.valueError,
              "Frame " ++ pyRepr group_id ++ " not found: " ++ e.msg⟩
      match frameRes with
      | .error e => .error e
      | .ok frame =>
          match convert_to_dict frame with
          | .error e => .error e
          | .ok frame_dict =>
              match pyIndex frame_dict "type" with
              | .error e => .error e
              | .ok tv =>
                  if !pyEq tv (.str "frame") then
                    .error ⟨.valueError, "Item " ++ pyRepr group_id ++ " is not a frame/group"⟩
                  else
                    match api.get_items board_id with
                    | .error e => .error e
                    | .ok all2 =>
                        match extract_items_list all2 with
                        | .error e => .error e
                        | .ok ival =>
                            match pyIterL ival with
                            | .error e => .error e
                            | .ok items =>
                                match filter_parented group_id items with
                                | .error e => .error e
                                | .ok board_items =>
                                    match unparentAll api board_id board_items with
                                    | .error e => .error e
                                    | .ok _ =>
                                        match api.delete_frame_item board_id group_id with
                                        | .error e => .error e
                                        | .ok _ =>
                                            .ok (.dict
                                              [("success", .bool true),
                                               ("message", .str ("Ungrouped " ++
                                                 toString board_items.length ++ " items"))])

/-! ## Tool handlers (src/tools/) and protocol server (src/server.py) -/

/-- The `{'error': message}` payload the handlers return on validation or
execution failure. -/
def errDict (m : String) : PyVal :=
  .dict [("error", .str m)]

/-- Python `v is not None`. -/
def pyIsNotNone : PyVal → Bool
  | .none => false
  | _ => true

/-- shape_tools._build_style_dict, lines 128-138: fillColor/borderColor are
kept when truthy, borderWidth when not None (`0` is valid) and coerced by
float() (which may raise, inside the caller's try). -/
def build_style_dict (arguments : PyVal) : Except PyErr StyleIn :=
  match pyGet arguments "fillColor" with
  | .error e => .error e
  | .ok fc =>
  match pyGet arguments "borderColor" with
  | .error e => .error e
  | .ok bc =>
  match pyGet arguments "borderWidth" with
  | .error e => .error e
  | .ok bw =>
      match (match bw with
             | .none => (.ok Option.none : Except PyErr (Option Rat))
             | v =>
                 match pyFloat v with
                 | .error e => .error e
                 | .ok q => .ok (some q)) with
      | .error e => .error e
      | .ok bwq =>
          .ok { fillColor := if pyTruthy fc then some fc else Option.none
                borderColor := if pyTruthy bc then some bc else Option.none
                borderWidth := bwq }

/-- shape_tools.handle_tool_call, lines 141-227.  create_shape validates
board_id/shape_type/width/height by truthiness but x/y only against None,
then runs the coercions, style build and client call inside the try whose
failures become `{'error': str(e)}`; update_shape builds its partial
position/geometry dicts OUTSIDE the try (a float() failure there
propagates), with the style build and client call inside it. -/
def shape_handle_tool_call (tool_name arguments : PyVal) (s : Session) :
    Except PyErr PyVal :=
  if pyEq tool_name (.str "create_shape") then
    match pyGet arguments "board_id" with
    | .error e => .error e
    | .ok board_id =>
    match pyGet arguments "shape_type" with
    | .error e => .error e
    | .ok shape_type =>
    match pyGet arguments "x" with
    | .error e => .error e
    | .ok x =>
    match pyGet arguments "y" with
    | .error e => .error e
    | .ok y =>
    match pyGet arguments "width" with
    | .error e => .error e
    | .ok width =>
    match pyGet arguments "height" with
    | .error e => .error e
    | .ok height =>
        if !(pyTruthy board_id && pyTruthy shape_type && pyIsNotNone x &&
             pyIsNotNone y && pyTruthy width && pyTruthy height) then
          .ok (errDict "board_id, shape_type, x, y, width, and height are required")
        else
          let attempt : Except PyErr PyVal :=
            match pyFloat x with
            | .error e => .error e
            | .ok xq =>
            match pyFloat y with
            | .error e => .error e
            | .ok yq =>
            match pyFloat width with
            | .error e => .error e
            | .ok wq =>
            match pyFloat height with
            | .error e => .error e
            | .ok hq =>
            match build_style_dict arguments with
            | .error e => .error e
            | .ok st =>
            match pyGet arguments "content" with
            | .error e => .error e
            | .ok content =>
                create_shape s board_id shape_type (xq, yq) (wq, hq)
                  (if styleInTruthy st then some st else Option.none) content
          match attempt with
          | .error e => .ok (errDict e.msg)
          | .ok result =>
              .ok (.dict [("success", .bool true), ("shape", result)])
  else if pyEq tool_name (.str "update_shape") then
    match pyGet arguments "board_id" with
    | .error e => .error e
    | .ok board_id =>
    match pyGet arguments "item_id" with
    | .error e => .error e
    | .ok item_id =>
        if !pyTruthy board_id || !pyTruthy item_id then
          .ok (errDict "board_id and item_id are required")
        else
          match pyGet arguments "x" with
          | .error e => .error e
          | .ok x =>
          match pyGet arguments "y" with
          | .error e => .error e
          | .ok y =>
          match (if pyIsNotNone x || pyIsNotNone y then
                   match (match x with
                          | .none => (.ok Option.none : Except PyErr (Option Rat))
                          | v =>
                              match pyFloat v with
                              | .error e => .error e
                              | .ok q => .ok (some q)) with
                   | .error e => .error e
                   | .ok xq =>
                       match (match y with
                              | .none => (.ok Option.none : Except PyErr (Option Rat))
                              | v =>
                                  match pyFloat v with
                                  | .error e => .error e
                                  | .ok q => .ok (some q)) with
                       | .error e => .error e
                       | .ok yq => .ok (some (xq, yq))
                 else (.ok Option.none : Except PyErr (Option (Option Rat × Option Rat)))) with
          | .error e => .error e
          | .ok position =>
          match pyGet arguments "width" with
          | .error e => .error e
          | .ok width =>
          match pyGet arguments "height" with
          | .error e => .error e
          | .ok height =>
          match (if pyIsNotNone width || pyIsNotNone height then
                   match (match width with
                          | .none => (.ok Option.none : Except PyErr (Option Rat))
                          | v =>
                              match pyFloat v with
                              | .error e => .error e
                              | .ok q => .ok (some q)) with
                   | .error e => .error e
                   | .ok wq =>
                       match (match height with
                              | .none => (.ok Option.none : Except PyErr (Option Rat))
                              | v =>
                                  match pyFloat v with
                                  | .error e => .error e
                                  | .ok q => .ok (some q)) with
                       | .error e => .error e
                       | .ok hq => .ok (some (wq, hq))
                 else (.ok Option.none : Except PyErr (Option (Option Rat × Option Rat)))) with
          | .error e => .error e
          | .ok geometry =>
              let attempt : Except PyErr PyVal :=
                match build_style_dict arguments with
                | .error e => .error e
                | .ok st =>
                match pyGet arguments "content" with
                | .error e => .error e
                | .ok content =>
                    update_shape s board_id item_id position geometry
                      (if styleInTruthy st then some st else Option.none) content
              match attempt with
              | .error e => .ok (errDict e.msg)
              | .ok result =>
                  .ok (.dict [("success", .bool true), ("shape", result)])
  else if pyEq tool_name (.str "delete_shape") then
    match pyGet arguments "board_id" with
    | .error e => .error e
    | .ok board_id =>
    match pyGet arguments "item_id" with
    | .error e => .error e
    | .ok item_id =>
        if !pyTruthy board_id || !pyTruthy item_id then
          .ok (errDict "board_id and item_id are required")
        else
          match delete_shape s board_id item_id with
          | .error e => .ok (errDict e.msg)
          | .ok _ =>
              .ok (.dict [("success", .bool true),
                          ("message", .str "Shape deleted successfully")])
  else
    .ok (errDict ("Unknown shape tool: " ++ pyRepr tool_name))

/-- group_tools.handle_tool_call, lines 39-77. -/
def group_handle_tool_call (tool_name arguments : PyVal) (s : Session) :
    Except PyErr PyVal :=
  if pyEq tool_name (.str "group_shapes") then
    match pyGet arguments "board_id" with
    | .error e => .error e
    | .ok board_id =>
    match pyGet arguments "item_ids" with
    | .error e => .error e
    | .ok item_ids =>
        if !pyTruthy board_id then .ok (errDict "board_id parameter is required")
        else
          match item_ids with
          | .pyList ids =>
              if !pyTruthy item_ids || ids.length < 2 then
                .ok (errDict "item_ids must be a list with at least 2 item IDs")
              else
                match group_shapes s board_id ids with
                | .error e => .ok (errDict e.msg)
                | .ok result =>
                    .ok (.dict [("success", .bool true), ("group", result),
                                ("message", .str ("Successfully grouped " ++
                                  toString ids.length ++ " shapes"))])
          | _ => .ok (errDict "item_ids must be a list with at least 2 item IDs")
  else if pyEq tool_name (.str "ungroup_shapes") then
    match pyGet arguments "board_id" with
    | .error e => .error e
    | .ok board_id =>
    match pyGet arguments "group_id" with
    | .error e => .error e
    | .ok group_id =>
        if !pyTruthy board_id || !pyTruthy group_id then
          .ok (errDict "board_id and group_id are required")
        else
          let attempt : Except PyErr PyVal :=
            match ungroup_shapes s board_id group_id with
            | .error e => .error e
            | .ok result => pyGetD result "message" (.str "Shapes ungrouped successfully")
          match attempt with
          | .error e => .ok (errDict e.msg)
          | .ok msg => .ok (.dict [("success", .bool true), ("message", msg)])
  else
    .ok (errDict ("Unknown group tool: " ++ pyRepr tool_name))

/-- auth_tools.handle_tool_call, lines 23-48.  get_auth_url replaces the
session's live handle; exchange_auth_code validates the code by truthiness
and persists tokens on success. -/
def auth_handle_tool_call (env : Env) (tool_name arguments : PyVal)
    (s : Session) (fs : FileState) : (Session × FileState) × Except PyErr PyVal :=
  if pyEq tool_name (.str "get_auth_url") then
    let (s2, url) := get_auth_url env s
    ((s2, fs),
     .ok (.dict [("success", .bool true), ("auth_url", .str url),
                 ("message", .str "Visit this URL to authorize the application, then use exchange_auth_code with the code from the callback")]))
  else if pyEq tool_name (.str "exchange_auth_code") then
    match pyGet arguments "code" with
    | .error e => ((s, fs), .error e)
    | .ok code =>
        if !pyTruthy code then ((s, fs), .ok (errDict "code parameter is required"))
        else
          match exchange_code_for_token s fs code with
          | (sfs2, .error e) => (sfs2, .ok (errDict e.msg))
          | (sfs2, .ok result) => (sfs2, .ok result)
  else
    ((s, fs), .ok (errDict ("Unknown auth tool: " ++ pyRepr tool_name)))

/-- board_tools.handle_tool_call, lines 17-35. -/
def board_handle_tool_call (env : Env) (tool_name arguments : PyVal)
    (s : Session) : Except PyErr PyVal :=
  if pyEq tool_name (.str "get_board") then
    match pyGet arguments "board_id" with
    | .error e => .error e
    | .ok board_id =>
        if !pyTruthy board_id then .ok (errDict "board_id is required")
        else
          match get_board env s board_id with
          | .error e => .ok (errDict e.msg)
          | .ok result => .ok (.dict [("success", .bool true), ("board", result)])
  else
    .ok (errDict ("Unknown board tool: " ++ pyRepr tool_name))

/-- json.dumps: succeeds exactly on JSON-serializable values; the rendered
string is abstracted (no claim inspects the rendering of a success body). -/
def jdumps (v : PyVal) : Except PyErr String :=
  if isJson v then .ok (pyRepr v)
  else .error ⟨.typeError, "Object is not JSON serializable"⟩

/-- The `{'content': [{'type': 'text', 'text': ...}]}` envelope of
server.handle_tools_call, with the optional isError flag. -/
def text_content_envelope (txt : String) (isErr : Bool) : PyVal :=
  if isErr then
    .dict [("content", .pyList [.dict [("type", .str "text"), ("text", .str txt)]]),
           ("isError", .bool true)]
  else
    .dict [("content", .pyList [.dict [("type", .str "text"), ("text", .str txt)]])]

/-- server.handle_initialize, lines 10-21. -/
def handle_initialize : PyVal :=
  .dict [("protocolVersion", .str "2024-11-05"),
         ("capabilities", .dict [("tools", .dict [])]),
         ("serverInfo", .dict [("name", .str "miro-mcp-server"),
                               ("version", .str "1.0.0")])]

/-- A field spec dict as a Python value (key order as written in the
registrations: type, description, then whichever of enum/items/required the
literal carries). -/
def fieldSpecToPyVal (f : FieldSpec) : PyVal :=
  .dict ([("type", .str f.type), ("description", .str f.description)]
    ++ (match f.enum with
        | some vs => [("enum", .pyList (vs.map PyVal.str))]
        | Option.none => [])
    ++ (match f.items with
        | some it => [("items", .dict [("type", .str it.type)])]
        | Option.none => [])
    ++ (match f.required with
        | some b => [("required", .bool b)]
        | Option.none => []))

/-- A registered descriptor as a Python value (tool_registry lines 10-18). -/
def toolDescriptorToPyVal (d : ToolDescriptor) : PyVal :=
  .dict [("name", .str d.name), ("description", .str d.description),
         ("inputSchema",
          .dict [("type", .str d.inputSchema.type),
                 ("properties",
                  .dict (d.inputSchema.properties.map
                    (fun kv => (kv.1, fieldSpecToPyVal kv.2)))),
                 ("required", .pyList (d.inputSchema.required.map PyVal.str))])]

/-- server.handle_tools_list, lines 24-28. -/
def handle_tools_list : PyVal :=
  .dict [("tools", .pyList (TOOLS.map (fun kv => toolDescriptorToPyVal kv.2)))]

/-- Wrap a routed handler result as server.handle_tools_call does (lines
61-74): JSON-stringify the result into a text content block; any exception
(from the handler or from json.dumps) becomes the isError envelope. -/
def wrap_tool_result (tool_name : PyVal) (st : Option Session × FileState)
    (res : Except PyErr PyVal) : (Option Session × FileState) × PyVal :=
  match res with
  | .error e =>
      (st, text_content_envelope
        ("Error executing tool " ++ pyRepr tool_name ++ ": " ++ e.msg) true)
  | .ok result =>
      match jdumps result with
      | .error e =>
          (st, text_content_envelope
            ("Error executing tool " ++ pyRepr tool_name ++ ": " ++ e.msg) true)
      | .ok txt => (st, text_content_envelope txt false)

/-- server.handle_tools_call, lines 31-74: unknown tool names yield an
isError content block (before any client construction); otherwise the client
is lazily constructed (a construction failure — including configuration
validation — is caught here and surfaced as an isError content block, and
the session stays uncached so a later call retries), the call is routed by
the static table, and the result or exception is wrapped. -/
def handle_tools_call (env : Env) (st : Option Session × FileState)
    (tool_name arguments : PyVal) : (Option Session × FileState) × PyVal :=
  let known : Bool :=
    match tool_name with
    | .str s0 => (TOOLS.lookup s0).isSome
    | _ => false
  if !known then
    (st, text_content_envelope ("Unknown tool: " ++ pyRepr tool_name) true)
  else
    let initRes : (Option Session × FileState) × Except PyErr Session :=
      match st.1 with
      | some s => (st, .ok s)
      | Option.none =>
          match MiroClient_init env st.2 with
          | (fs2, .error e) => ((Option.none, fs2), .error e)
          | (fs2, .ok s) => ((some s, fs2), .ok s)
    match initRes with
    | (st2, .error e) =>
        (st2, text_content_envelope
          ("Error executing tool " ++ pyRepr tool_name ++ ": " ++ e.msg) true)
    | ((_, fs2), .ok s) =>
        let sName : String :=
          match tool_name with
          | .str s0 => s0
          | _ => ""
        if sName == "create_shape" || sName == "update_shape" || sName == "delete_shape" then
          wrap_tool_result tool_name (some s, fs2)
            (shape_handle_tool_call tool_name arguments s)
        else if sName == "group_shapes" || sName == "ungroup_shapes" then
          wrap_tool_result tool_name (some s, fs2)
            (group_handle_tool_call tool_name arguments s)
        else if sName.startsWith "get_auth" || sName.startsWith "exchange_auth" then
          match auth_handle_tool_call env tool_name arguments s fs2 with
          | ((s3, fs3), r) => wrap_tool_result tool_name (some s3, fs3) r
        else if sName == "get_board" then
          wrap_tool_result tool_name (some s, fs2)
            (board_handle_tool_call env tool_name arguments s)
        else
          ((some s, fs2),
           text_content_envelope ("No handler for tool: " ++ pyRepr tool_name) true)

/-- server.process_request, lines 77-110: read method, params (default {})
and id from the request (a non-dict request raises AttributeError, escaping
to the caller), route the three known methods, answer -32601 for unknown
methods only when an id is present, and attach the result to the id —
requests without an id (or with a null id, which `.get` conflates) receive
no response. -/
def process_request (env : Env) (st : Option Session × FileState)
    (request : PyVal) :
    (Option Session × FileState) × Except PyErr (Option PyVal) :=
  match pyGet request "method" with
  | .error e => (st, .error e)
  | .ok method =>
  match pyGetD request "params" (.dict []) with
  | .error e => (st, .error e)
  | .ok params =>
  match pyGet request "id" with
  | .error e => (st, .error e)
  | .ok request_id =>
      if pyEq method (.str "initialize") then
        (st, .ok (if pyIsNotNone request_id
                  then some (.dict [("jsonrpc", .str "2.0"), ("id", request_id),
                                    ("result", handle_initialize)])
                  else Option.none))
      else if pyEq method (.str "tools/list") then
        (st, .ok (if pyIsNotNone request_id
                  then some (.dict [("jsonrpc", .str "2.0"), ("id", request_id),
                                    ("result", handle_tools_list)])
                  else Option.none))
      else if pyEq method (.str "tools/call") then
        match pyGet params "name" with
        | .error e => (st, .error e)
        | .ok tool_name =>
            match pyGetD params "arguments" (.dict []) with
            | .error e => (st, .error e)
            | .ok arguments =>
                match handle_tools_call env st tool_name arguments with
                | (st2, response) =>
                    (st2, .ok (if pyIsNotNone request_id
                               then some (.dict [("jsonrpc", .str "2.0"),
                                                 ("id", request_id),
                                                 ("result", response)])
                               else Option.none))
      else
        if pyIsNotNone request_id then
          (st, .ok (some (.dict [("jsonrpc", .str "2.0"), ("id", request_id),
                                 ("error", .dict [("code", .int (-32601)),
                                                  ("message", .str ("Method not found: " ++ pyRepr method))])])))
        else (st, .ok Option.none)

/-- One line of standard input as the main loop classifies it: blank after
strip, JSON-parse failure, or a parsed value. -/
inductive InLine where
  | blank
  | malformed (msg : String)
  | parsed (v : PyVal)

/-- server.main's per-line handling, lines 133-169: blank lines are skipped;
parse failures answer -32700 with a null id; any exception escaping
process_request (or the response serialization) is caught by the outer
`except Exception` and answered as -32603 with a null id; no path terminates
the loop. -/
def mainStep (env : Env) (st : Option Session × FileState) (line : InLine) :
    (Option Session × FileState) × Option PyVal :=
  match line with
  | .blank => (st, Option.none)
  | .malformed m =>
      (st, some (.dict [("jsonrpc", .str "2.0"), ("id", .none),
                        ("error", .dict [("code", .int (-32700)),
                                         ("message", .str ("Parse error: " ++ m))])]))
  | .parsed req =>
      match process_request env st req with
      | (st2, .ok Option.none) => (st2, Option.none)
      | (st2, .ok (some resp)) =>
          match jdumps resp with
          | .ok _ => (st2, some resp)
          | .error e =>
              (st2, some (.dict [("jsonrpc", .str "2.0"), ("id", .none),
                                 ("error", .dict [("code", .int (-32603)),
                                                  ("message", .str ("Internal error: " ++ e.msg))])]))
      | (st2, .error e) =>
          (st2, some (.dict [("jsonrpc", .str "2.0"), ("id", .none),
                             ("error", .dict [("code", .int (-32603)),
                                              ("message", .str ("Internal error: " ++ e.msg))])]))

/-! ## Concrete fixtures for witnesses and counterexamples -/

/-- An api oracle on which every call fails (the mutating-call theorems hold
for every oracle; this one makes witnesses concrete). -/
def trivialApi : ApiOracle :=
  { create_shape_item := fun _ _ => .error ⟨.other, "api unavailable"⟩
    update_shape_item := fun _ _ _ => .error ⟨.other, "api unavailable"⟩
    delete_shape_item := fun _ _ => .error ⟨.other, "api unavailable"⟩
    get_shape_item := fun _ _ => .error ⟨.other, "api unavailable"⟩
    get_frame_item := fun _ _ => .error ⟨.other, "api unavailable"⟩
    get_items := fun _ => .error ⟨.other, "api unavailable"⟩
    create_frame_item := fun _ _ => .error ⟨.other, "api unavailable"⟩
    update_item_position_or_parent := fun _ _ _ => .error ⟨.other, "api unavailable"⟩
    delete_frame_item := fun _ _ => .error ⟨.other, "api unavailable"⟩ }

/-- An api oracle whose shape endpoints succeed with a fixed item. -/
def okApi : ApiOracle :=
  { trivialApi with
    create_shape_item := fun _ _ => .ok (.dict [("id", .str "shape-1")])
    update_shape_item := fun _ _ _ => .ok (.dict [("id", .str "shape-1")]) }

/-- A fresh SDK handle as miro_api.Miro would construct it (no token yet). -/
def trivialHandle : LiveHandle :=
  { access_token := Option.none
    refresh_token := Option.none
    auth_url := "https://miro.example/oauth"
    exchange := fun _ => .error ⟨.other, "exchange unavailable"⟩
    api := trivialApi }

/-- A handle holding a token obtained through the in-process OAuth flow. -/
def liveHandle : LiveHandle :=
  { trivialHandle with access_token := some "tok", api := okApi }

/-- A session with the given handle and stored tokens. -/
def baseSession (m : Option LiveHandle) (a r : Option PyVal) : Session :=
  { client_id := some "cid"
    client_secret := some "sec"
    redirect_url := "http://localhost:8080/callback"
    miro := m
    stored_access := a
    stored_refresh := r }

/-- A session whose only credential is the live OAuth handle. -/
def liveSession : Session :=
  baseSession (some liveHandle) Option.none Option.none

/-- A complete configuration. -/
def goodCfg : Config :=
  { MIRO_CLIENT_ID := some "cid", MIRO_CLIENT_SECRET := some "sec" }

/-- A configuration missing the client identifier. -/
def badCfg : Config :=
  { MIRO_CLIENT_ID := Option.none, MIRO_CLIENT_SECRET := some "sec" }

/-- An environment whose configuration is missing the client identifier. -/
def badCfgEnv : Env :=
  { cfg := badCfg
    mkMiro := trivialHandle
    http_get := fun _ _ => .error ⟨.other, "network unavailable"⟩ }

/-- An environment whose board GET succeeds with a fixed body. -/
def okHttpEnv : Env :=
  { cfg := goodCfg
    mkMiro := trivialHandle
    http_get := fun _ _ => .ok (.dict [("id", .str "board-1")]) }

/-! ## C1 -/

/-- C1: the claim says every tool's derived `required` list names exactly the
fields not marked optional, the flag defaulting to TRUE when absent, so
create_shape's list should carry board_id/shape_type/x/y/width/height.  The
code (tool_registry line 8) defaults the flag to FALSE, and no registration
ever sets `required: True`, so every registered tool's derived list is empty
— the explicit `required: False` markers on the optional fields (meaningful
only under a default of true) and the handlers' own enforcement of those six
fields show the spec is the intent and the code a slip.  This theorem
evaluates the code over the whole registry and, beside it, the spec's
derivation on the create_shape parameters. -/
theorem C1_required_derivation_bug :
    TOOLS.map (fun kv => (kv.1, kv.2.inputSchema.required)) =
      [("create_shape", []), ("update_shape", []), ("delete_shape", []),
       ("group_shapes", []), ("ungroup_shapes", []), ("get_auth_url", []),
       ("exchange_auth_code", []), ("get_board", [])] ∧
    specRequired createShapeParams =
      ["board_id", "shape_type", "x", "y", "width", "height"] :=
  ⟨rfl, rfl⟩

/-! ## C5 -/

/-- C5 counterexample: the claim says that on ANY parse failure or missing
access-token field the stored file is removed and None returned, with no
exception escaping.  A token file holding the JSON list `[]` parses, has no
access-token field, and yet `tokens['access_token']` raises a TypeError that
the `except (json.JSONDecodeError, KeyError)` clause does not catch: the
exception escapes `_load_tokens` and the file is left in place. -/
theorem C5_load_nondict_counterexample :
    load_tokens (.parsed (.pyList [])) =
      (.parsed (.pyList []),
       .error ⟨.typeError, "value is not subscriptable by string"⟩) := rfl

/-- C5 amended: load returns None when the file is absent; on a JSON parse
failure, or on a missing access-token key in a parsed JSON OBJECT, it removes
the stored file and returns None with no exception; but a file parsing to a
non-object JSON value raises an uncaught TypeError and the file is left in
place. -/
theorem C5_load_recovery_amended :
    load_tokens .absent = (.absent, .ok (Option.none, Option.none)) ∧
    load_tokens .unparsable = (.absent, .ok (Option.none, Option.none)) ∧
    (∀ es : List (String × PyVal), es.lookup "access_token" = Option.none →
        load_tokens (.parsed (.dict es)) = (.absent, .ok (Option.none, Option.none))) ∧
    (∀ v : PyVal, (∀ es, v ≠ .dict es) →
        load_tokens (.parsed v) =
          (.parsed v, .error ⟨.typeError, "value is not subscriptable by string"⟩)) := by
  refine ⟨rfl, rfl, ?_, ?_⟩
  · intro es h
    simp [load_tokens, h]
  · intro v h
    cases v with
    | dict es => exact absurd rfl (h es)
    | none => rfl
    | bool b => rfl
    | int n => rfl
    | float q => rfl
    | str s => rfl
    | datetime iso => rfl
    | pyList l => rfl
    | obj t md dm at_ sr => rfl

/-- C5 witness: the amended theorem applied at a parsed empty object and at a
parsed integer. -/
theorem C5_load_recovery_witness :
    load_tokens (.parsed (.dict [])) = (.absent, .ok (Option.none, Option.none)) ∧
    load_tokens (.parsed (.int 7)) =
      (.parsed (.int 7), .error ⟨.typeError, "value is not subscriptable by string"⟩) :=
  ⟨C5_load_recovery_amended.2.2.1 [] rfl,
   C5_load_recovery_amended.2.2.2 (.int 7) (fun _ h => by cases h)⟩

/-! ## C9 -/

/-- C9 counterexample: the claim quantifies over every token pair, but
`_save_tokens` only writes when the access token is truthy: saving the pair
("", None) on an empty store writes nothing, and the following load returns
no pair at all (not a pair equal to the one saved). -/
theorem C9_roundtrip_counterexample :
    (save_tokens (baseSession Option.none (some (.str "")) Option.none) .absent).2 = .absent ∧
    (load_tokens .absent).2 = .ok (Option.none, Option.none) := ⟨rfl, rfl⟩

/-- C9 amended: for every pair whose access token is a non-empty string —
whether held by the live handle or by the stored session fields — save
followed by load returns the same pair (refresh None round-trips through the
written JSON null). -/
theorem C9_roundtrip_amended (a : String) (ha : a ≠ "") (r : Option String)
    (s : Session) (fs : FileState)
    (h : (s.miro = Option.none ∧ s.stored_access = some (.str a) ∧
          s.stored_refresh = r.map PyVal.str) ∨
         (∃ hl : LiveHandle, s.miro = some hl ∧ hl.access_token = some a ∧
          hl.refresh_token = r)) :
    load_tokens (save_tokens s fs).2 =
      ((save_tokens s fs).2, .ok (some (.str a), r.map PyVal.str)) := by
  have ha' : (a != "") = true := by simpa using ha
  rcases h with ⟨hm, hsa, hsr⟩ | ⟨hl, hm, hat, hrt⟩
  · rw [save_tokens]
    simp only [hm, hsa, hsr, pyTruthyOpt, pyTruthy, ha', if_true]
    cases r with
    | none => simp [load_tokens, noneAsOpt, List.lookup]
    | some t => simp [load_tokens, noneAsOpt, List.lookup]
  · have htt : handleTokenTruthy hl = true := by
      rw [handleTokenTruthy, hat]
      exact ha'
    rw [save_tokens]
    simp only [hm, htt, if_true, hat, hrt, Option.getD]
    cases r with
    | none => simp [load_tokens, noneAsOpt, List.lookup]
    | some t => simp [load_tokens, noneAsOpt, List.lookup]

/-- C9 witness: the amended round-trip at a concrete stored pair and at a
concrete live-handle pair. -/
theorem C9_roundtrip_witness :
    load_tokens (save_tokens (baseSession Option.none (some (.str "tok")) Option.none) .absent).2 =
      ((save_tokens (baseSession Option.none (some (.str "tok")) Option.none) .absent).2,
       .ok (some (.str "tok"), Option.none)) ∧
    load_tokens (save_tokens liveSession .absent).2 =
      ((save_tokens liveSession .absent).2, .ok (some (.str "tok"), Option.none)) :=
  ⟨C9_roundtrip_amended "tok" (by decide) Option.none _ _ (Or.inl ⟨rfl, rfl, rfl⟩),
   C9_roundtrip_amended "tok" (by decide) Option.none _ _
     (Or.inr ⟨liveHandle, rfl, rfl, rfl⟩)⟩

/-! ## C3 -/

/-- C3 counterexample: the claim says the serializer returns a
JSON-serializable value and never raises, for every input.  Two concrete
inputs refute it on the code: (a) an object matching the `typing` type-string
heuristic whose `str()` raises makes the unguarded `return str(obj)` at line
22 raise out of convert_to_dict; (b) an object whose `model_dump(mode='json')`
succeeds is returned verbatim (line 27), so a dump returning a
non-JSON-serializable value (here another model object, as Pydantic v1-style
dumps returning datetimes do) is passed through unconverted. -/
theorem C3_convert_counterexample :
    convert_to_dict (.obj true Option.none Option.none Option.none Option.none) =
      .error ⟨.typeError, "__str__ raised"⟩ ∧
    convert_to_dict
      (.obj false
        (some (some (.obj false Option.none Option.none Option.none (some "X")),
               Option.none))
        Option.none Option.none Option.none) =
      .ok (.obj false Option.none Option.none Option.none (some "X")) ∧
    isJson (.obj false Option.none Option.none Option.none (some "X")) = false :=
  ⟨rfl, rfl, rfl⟩

/-- C3 amended: convert_to_dict never raises and returns a JSON-serializable
value on every `dumpSafe` input — one with no typing-marked object (whose
string conversion the code leaves unguarded) and in which every successful
dump-method result is itself JSON-serializable (such results being passed
through unconverted).  This covers the spec's enumerated families: null,
primitives, datetimes, nested mappings and sequences of such, objects with
attributes, and objects whose dump method throws. -/
theorem C3_convert_total_amended (v : PyVal) (h : dumpSafe v = true) :
    ∃ j, convert_to_dict v = .ok j ∧ isJson j = true :=
  dumpSafe_ok v h

/-- C3 witness: the amended totality at a nested value exercising a mapping,
a sequence, a datetime, an object with attributes and an object whose dump
method throws. -/
theorem C3_convert_total_witness :
    dumpSafe (.dict
      [("a", .pyList [.int 1, .datetime "2024-01-01T00:00:00"]),
       ("b", .obj false (some (Option.none, Option.none)) Option.none
          (some [("x", .str "y"), ("_p", .int 2)]) (some "B"))]) = true ∧
    ∃ j, convert_to_dict (.dict
      [("a", .pyList [.int 1, .datetime "2024-01-01T00:00:00"]),
       ("b", .obj false (some (Option.none, Option.none)) Option.none
          (some [("x", .str "y"), ("_p", .int 2)]) (some "B"))]) = .ok j ∧
      isJson j = true :=
  ⟨rfl, C3_convert_total_amended _ rfl⟩

/-! ## C4 -/

/-- C4: a session whose only credential is a cached token loaded from disk
(no live handle) fails every board-mutating operation with the
re-authentication ValueError directing the caller back to
get_auth_url/exchange_code_for_token — regardless of the api oracle, which
is never reached — while get_board on the same session succeeds via the
direct HTTP GET carrying `Bearer <cached token>`, its result being the
normalized response body. -/
theorem C4_cached_token_asymmetry (tok : String) (htok : tok ≠ "") (s : Session)
    (hm : s.miro = Option.none) (ha : s.stored_access = some (.str tok)) :
    (get_api s = .error ⟨.valueError,
      "Miro API client requires tokens to be set through OAuth flow. Please call get_auth_url() and exchange_code_for_token() to re-authenticate."⟩) ∧
    (∀ bid stype pos geom st ct, create_shape s bid stype pos geom st ct =
      .error ⟨.valueError,
        "Miro API client requires tokens to be set through OAuth flow. Please call get_auth_url() and exchange_code_for_token() to re-authenticate."⟩) ∧
    (∀ bid iid pos geom st ct, update_shape s bid iid pos geom st ct =
      .error ⟨.valueError,
        "Miro API client requires tokens to be set through OAuth flow. Please call get_auth_url() and exchange_code_for_token() to re-authenticate."⟩) ∧
    (∀ bid iid, delete_shape s bid iid =
      .error ⟨.valueError,
        "Miro API client requires tokens to be set through OAuth flow. Please call get_auth_url() and exchange_code_for_token() to re-authenticate."⟩) ∧
    (∀ bid ids, group_shapes s bid ids =
      .error ⟨.valueError,
        "Miro API client requires tokens to be set through OAuth flow. Please call get_auth_url() and exchange_code_for_token() to re-authenticate."⟩) ∧
    (∀ bid gid, ungroup_shapes s bid gid =
      .error ⟨.valueError,
        "Miro API client requires tokens to be set through OAuth flow. Please call get_auth_url() and exchange_code_for_token() to re-authenticate."⟩) ∧
    (∀ (env : Env) (bid body : PyVal),
      env.http_get ("https://api.miro.com/v2/boards/" ++ pyRepr bid)
          ("Bearer " ++ tok) = .ok body →
      get_board env s bid = convert_to_dict body) := by
  have htok' : (tok != "") = true := by simpa using htok
  have hauth : is_authenticated s = true := by
    rw [is_authenticated, hm, ha]
    simp
  have hapi : get_api s = .error ⟨.valueError,
      "Miro API client requires tokens to be set through OAuth flow. Please call get_auth_url() and exchange_code_for_token() to re-authenticate."⟩ := by
    rw [get_api, ensure_authenticated, hauth]
    simp only [if_true, hm, ha, pyTruthyOpt, pyTruthy, htok', if_true]
  refine ⟨hapi, ?_, ?_, ?_, ?_, ?_, ?_⟩
  · intro bid stype pos geom st ct
    rw [create_shape, hapi]
  · intro bid iid pos geom st ct
    rw [update_shape, hapi]
  · intro bid iid
    rw [delete_shape, hapi]
  · intro bid ids
    rw [group_shapes, hapi]
  · intro bid gid
    rw [ungroup_shapes, hapi]
  · intro env bid body hhttp
    rw [get_board, ensure_authenticated, hauth]
    simp only [if_true, hm, ha, pyTruthyOpt, pyTruthy, htok', if_true]
    rw [show pyRepr ((some (PyVal.str tok)).getD PyVal.none) = tok from rfl, hhttp]

/-- C4 witness: the asymmetry at the concrete cached-only session with token
"tok": create_shape fails with the re-authentication error while get_board
succeeds over the concrete HTTP oracle. -/
theorem C4_cached_token_asymmetry_witness :
    create_shape (baseSession Option.none (some (.str "tok")) Option.none)
        (.str "b") (.str "rectangle") (0, 0) (10, 10) Option.none .none =
      .error ⟨.valueError,
        "Miro API client requires tokens to be set through OAuth flow. Please call get_auth_url() and exchange_code_for_token() to re-authenticate."⟩ ∧
    get_board okHttpEnv (baseSession Option.none (some (.str "tok")) Option.none)
        (.str "b") = .ok (.dict [("id", .str "board-1")]) := by
  have h := C4_cached_token_asymmetry "tok" (by decide)
    (baseSession Option.none (some (.str "tok")) Option.none) rfl rfl
  refine ⟨h.2.1 _ _ _ _ _ _, ?_⟩
  rw [h.2.2.2.2.2.2 okHttpEnv (.str "b") (.dict [("id", .str "board-1")]) rfl]
  rfl

/-! ## C6 -/

/-- A resolved item record as group_shapes sees it after normalization:
position and geometry sub-dicts with numeric entries. -/
def mkItemDict (x y w h : Rat) : PyVal :=
  .dict [("position", .dict [("x", .float x), ("y", .float y)]),
         ("geometry", .dict [("width", .float w), ("height", .float h)])]

theorem foldl_min_mem (xs : List Rat) : ∀ x : Rat, xs.foldl min x ∈ x :: xs := by
  induction xs with
  | nil => intro x; simp
  | cons b bs ih =>
      intro x
      have h := ih (min x b)
      rcases List.mem_cons.mp h with h0 | h0
      · rcases min_choice x b with hc | hc
        · rw [List.foldl, h0, hc]
          exact List.mem_cons_self _ _
        · rw [List.foldl, h0, hc]
          exact List.mem_cons_of_mem _ (List.mem_cons_self _ _)
      · exact List.mem_cons_of_mem _ (List.mem_cons_of_mem _ (by simpa using h0))

theorem foldl_min_le (xs : List Rat) : ∀ x a : Rat, a ∈ x :: xs → xs.foldl min x ≤ a := by
  induction xs with
  | nil =>
      intro x a ha
      rcases List.mem_cons.mp ha with h0 | h0
      · simp [h0]
      · simp at h0
  | cons b bs ih =>
      intro x a ha
      rcases List.mem_cons.mp ha with h0 | h0
      · subst h0
        calc bs.foldl min (min a b) ≤ min a b :=
              ih (min a b) (min a b) (List.mem_cons_self _ _)
          _ ≤ a := min_le_left _ _
      · rcases List.mem_cons.mp h0 with h1 | h1
        · subst h1
          calc bs.foldl min (min x a) ≤ min x a :=
                ih (min x a) (min x a) (List.mem_cons_self _ _)
            _ ≤ a := min_le_right _ _
        · exact ih (min x b) a (List.mem_cons_of_mem _ h1)

theorem foldl_max_mem (xs : List Rat) : ∀ x : Rat, xs.foldl max x ∈ x :: xs := by
  induction xs with
  | nil => intro x; simp
  | cons b bs ih =>
      intro x
      have h := ih (max x b)
      rcases List.mem_cons.mp h with h0 | h0
      · rcases max_choice x b with hc | hc
        · rw [List.foldl, h0, hc]
          exact List.mem_cons_self _ _
        · rw [List.foldl, h0, hc]
          exact List.mem_cons_of_mem _ (List.mem_cons_self _ _)
      · exact List.mem_cons_of_mem _ (List.mem_cons_of_mem _ (by simpa using h0))

theorem foldl_max_ge (xs : List Rat) : ∀ x a : Rat, a ∈ x :: xs → a ≤ xs.foldl max x := by
  induction xs with
  | nil =>
      intro x a ha
      rcases List.mem_cons.mp ha with h0 | h0
      · simp [h0]
      · simp at h0
  | cons b bs ih =>
      intro x a ha
      rcases List.mem_cons.mp ha with h0 | h0
      · subst h0
        calc a ≤ max a b := le_max_left _ _
          _ ≤ bs.foldl max (max a b) :=
              ih (max a b) (max a b) (List.mem_cons_self _ _)
      · rcases List.mem_cons.mp h0 with h1 | h1
        · subst h1
          calc a ≤ max x a := le_max_right _ _
            _ ≤ bs.foldl max (max x a) :=
                ih (max x a) (max x a) (List.mem_cons_self _ _)
        · exact ih (max x b) a (List.mem_cons_of_mem _ h1)

theorem travPy_position_aux (qs : List (Rat × Rat × Rat × Rat)) :
    travPy (fun it => pyIndex it "position")
        (qs.map (fun q => mkItemDict q.1 q.2.1 q.2.2.1 q.2.2.2)) =
      .ok (qs.map (fun q => PyVal.dict [("x", .float q.1), ("y", .float q.2.1)])) := by
  induction qs with
  | nil => rfl
  | cons q rest ih =>
      rw [List.map_cons, travPy, ih]
      rfl

theorem travPy_geometry_aux (qs : List (Rat × Rat × Rat × Rat)) :
    travPy (fun it => pyIndex it "geometry")
        (qs.map (fun q => mkItemDict q.1 q.2.1 q.2.2.1 q.2.2.2)) =
      .ok (qs.map (fun q => PyVal.dict [("width", .float q.2.2.1), ("height", .float q.2.2.2)])) := by
  induction qs with
  | nil => rfl
  | cons q rest ih =>
      rw [List.map_cons, travPy, ih]
      rfl

theorem travQ_xs_aux (qs : List (Rat × Rat × Rat × Rat)) :
    travQ (fun p =>
        match pyIndex p "x" with
        | .error e => .error e
        | .ok v => pyNumVal v)
      (qs.map (fun q => PyVal.dict [("x", .float q.1), ("y", .float q.2.1)])) =
      .ok (qs.map (fun q => q.1)) := by
  induction qs with
  | nil => rfl
  | cons q rest ih =>
      rw [List.map_cons, travQ, ih]
      rfl

theorem travQ_ys_aux (qs : List (Rat × Rat × Rat × Rat)) :
    travQ (fun p =>
        match pyIndex p "y" with
        | .error e => .error e
        | .ok v => pyNumVal v)
      (qs.map (fun q => PyVal.dict [("x", .float q.1), ("y", .float q.2.1)])) =
      .ok (qs.map (fun q => q.2.1)) := by
  induction qs with
  | nil => rfl
  | cons q rest ih =>
      rw [List.map_cons, travQ, ih]
      rfl

theorem travQ2_rights_aux (qs : List (Rat × Rat × Rat × Rat)) :
    travQ2 (fun pg =>
        match pyIndex pg.1 "x" with
        | .error e => .error e
        | .ok xv =>
            match pyNumVal xv with
            | .error e => .error e
            | .ok x =>
                match pyIndex pg.2 "width" with
                | .error e => .error e
                | .ok wv =>
                    match pyNumVal wv with
                    | .error e => .error e
                    | .ok w => .ok (x + w))
      ((qs.map (fun q => PyVal.dict [("x", .float q.1), ("y", .float q.2.1)])).zip
        (qs.map (fun q => PyVal.dict [("width", .float q.2.2.1), ("height", .float q.2.2.2)]))) =
      .ok (qs.map (fun q => q.1 + q.2.2.1)) := by
  induction qs with
  | nil => rfl
  | cons q rest ih =>
      rw [List.map_cons, List.map_cons, List.zip_cons_cons, travQ2, ih]
      rfl

theorem travQ2_bottoms_aux (qs : List (Rat × Rat × Rat × Rat)) :
    travQ2 (fun pg =>
        match pyIndex pg.1 "y" with
        | .error e => .error e
        | .ok yv =>
            match pyNumVal yv with
            | .error e => .error e
            | .ok y =>
                match pyIndex pg.2 "height" with
                | .error e => .error e
                | .ok hv =>
                    match pyNumVal hv with
                    | .error e => .error e
                    | .ok h => .ok (y + h))
      ((qs.map (fun q => PyVal.dict [("x", .float q.1), ("y", .float q.2.1)])).zip
        (qs.map (fun q => PyVal.dict [("width", .float q.2.2.1), ("height", .float q.2.2.2)]))) =
      .ok (qs.map (fun q => q.2.1 + q.2.2.2)) := by
  induction qs with
  | nil => rfl
  | cons q rest ih =>
      rw [List.map_cons, List.map_cons, List.zip_cons_cons, travQ2, ih]
      rfl


theorem travPy_position_cons (q0 : Rat × Rat × Rat × Rat) (rest : List (Rat × Rat × Rat × Rat)) :
    travPy (fun it => pyIndex it "position")
        (mkItemDict q0.1 q0.2.1 q0.2.2.1 q0.2.2.2 ::
          rest.map (fun q => mkItemDict q.1 q.2.1 q.2.2.1 q.2.2.2)) =
      .ok (PyVal.dict [("x", .float q0.1), ("y", .float q0.2.1)] ::
        rest.map (fun q => PyVal.dict [("x", .float q.1), ("y", .float q.2.1)])) := by
  have h := travPy_position_aux (q0 :: rest)
  rwa [List.map_cons, List.map_cons] at h

theorem travPy_geometry_cons (q0 : Rat × Rat × Rat × Rat) (rest : List (Rat × Rat × Rat × Rat)) :
    travPy (fun it => pyIndex it "geometry")
        (mkItemDict q0.1 q0.2.1 q0.2.2.1 q0.2.2.2 ::
          rest.map (fun q => mkItemDict q.1 q.2.1 q.2.2.1 q.2.2.2)) =
      .ok (PyVal.dict [("width", .float q0.2.2.1), ("height", .float q0.2.2.2)] ::
        rest.map (fun q => PyVal.dict [("width", .float q.2.2.1), ("height", .float q.2.2.2)])) := by
  have h := travPy_geometry_aux (q0 :: rest)
  rwa [List.map_cons, List.map_cons] at h

theorem travQ_xs_cons (q0 : Rat × Rat × Rat × Rat) (rest : List (Rat × Rat × Rat × Rat)) :
    travQ (fun p =>
        match pyIndex p "x" with
        | .error e => .error e
        | .ok v => pyNumVal v)
      (PyVal.dict [("x", .float q0.1), ("y", .float q0.2.1)] ::
        rest.map (fun q => PyVal.dict [("x", .float q.1), ("y", .float q.2.1)])) =
      .ok (q0.1 :: rest.map (fun q => q.1)) := by
  have h := travQ_xs_aux (q0 :: rest)
  rwa [List.map_cons, List.map_cons] at h

theorem travQ_ys_cons (q0 : Rat × Rat × Rat × Rat) (rest : List (Rat × Rat × Rat × Rat)) :
    travQ (fun p =>
        match pyIndex p "y" with
        | .error e => .error e
        | .ok v => pyNumVal v)
      (PyVal.dict [("x", .float q0.1), ("y", .float q0.2.1)] ::
        rest.map (fun q => PyVal.dict [("x", .float q.1), ("y", .float q.2.1)])) =
      .ok (q0.2.1 :: rest.map (fun q => q.2.1)) := by
  have h := travQ_ys_aux (q0 :: rest)
  rwa [List.map_cons, List.map_cons] at h

theorem travQ2_rights_cons (q0 : Rat × Rat × Rat × Rat) (rest : List (Rat × Rat × Rat × Rat)) :
    travQ2 (fun pg =>
        match pyIndex pg.1 "x" with
        | .error e => .error e
        | .ok xv =>
            match pyNumVal xv with
            | .error e => .error e
            | .ok x =>
                match pyIndex pg.2 "width" with
                | .error e => .error e
                | .ok wv =>
                    match pyNumVal wv with
                    | .error e => .error e
                    | .ok w => .ok (x + w))
      ((PyVal.dict [("x", .float q0.1), ("y", .float q0.2.1)] ::
          rest.map (fun q => PyVal.dict [("x", .float q.1), ("y", .float q.2.1)])).zip
        (PyVal.dict [("width", .float q0.2.2.1), ("height", .float q0.2.2.2)] ::
          rest.map (fun q => PyVal.dict [("width", .float q.2.2.1), ("height", .float q.2.2.2)]))) =
      .ok ((q0.1 + q0.2.2.1) :: rest.map (fun q => q.1 + q.2.2.1)) := by
  have h := travQ2_rights_aux (q0 :: rest)
  rwa [List.map_cons, List.map_cons, List.map_cons] at h

theorem travQ2_bottoms_cons (q0 : Rat × Rat × Rat × Rat) (rest : List (Rat × Rat × Rat × Rat)) :
    travQ2 (fun pg =>
        match pyIndex pg.1 "y" with
        | .error e => .error e
        | .ok yv =>
            match pyNumVal yv with
            | .error e => .error e
            | .ok y =>
                match pyIndex pg.2 "height" with
                | .error e => .error e
                | .ok hv =>
                    match pyNumVal hv with
                    | .error e => .error e
                    | .ok h => .ok (y + h))
      ((PyVal.dict [("x", .float q0.1), ("y", .float q0.2.1)] ::
          rest.map (fun q => PyVal.dict [("x", .float q.1), ("y", .float q.2.1)])).zip
        (PyVal.dict [("width", .float q0.2.2.1), ("height", .float q0.2.2.2)] ::
          rest.map (fun q => PyVal.dict [("width", .float q.2.2.1), ("height", .float q.2.2.2)]))) =
      .ok ((q0.2.1 + q0.2.2.2) :: rest.map (fun q => q.2.1 + q.2.2.2)) := by
  have h := travQ2_bottoms_aux (q0 :: rest)
  rwa [List.map_cons, List.map_cons, List.map_cons] at h

theorem group_bounding_frame_eval (q0 : Rat × Rat × Rat × Rat)
    (rest : List (Rat × Rat × Rat × Rat)) :
    group_bounding_frame ((q0 :: rest).map (fun q => mkItemDict q.1 q.2.1 q.2.2.1 q.2.2.2)) =
      .ok { title := "Group"
            x := (rest.map (fun q => q.1)).foldl min q0.1
            y := (rest.map (fun q => q.2.1)).foldl min q0.2.1
            width := (rest.map (fun q => q.1 + q.2.2.1)).foldl max (q0.1 + q0.2.2.1) -
              (rest.map (fun q => q.1)).foldl min q0.1
            height := (rest.map (fun q => q.2.1 + q.2.2.2)).foldl max (q0.2.1 + q0.2.2.2) -
              (rest.map (fun q => q.2.1)).foldl min q0.2.1 } := by
  simp only [group_bounding_frame, List.map_cons, travPy_position_cons, travPy_geometry_cons,
    travQ_xs_cons, travQ_ys_cons, travQ2_rights_cons, travQ2_bottoms_cons, pyMin, pyMax]

/-- C6: the frame computed by group_shapes is the axis-aligned bounding box
of the resolved items — its x (resp. y) is the minimum of all items' x
(resp. y), attained by some item, and its x+width (resp. y+height) is the
maximum of all items' x+width (resp. y+height), attained by some item; and on
the two items (0,0,10,10) and (20,5,10,10) the frame is exactly
{x:0, y:0, width:30, height:15}. -/
theorem C6_group_bounding_box :
    (∀ (qs : List (Rat × Rat × Rat × Rat)), qs ≠ [] →
      ∃ fd, group_bounding_frame
          (qs.map (fun q => mkItemDict q.1 q.2.1 q.2.2.1 q.2.2.2)) = .ok fd ∧
        fd.title = "Group" ∧
        (∀ q ∈ qs, fd.x ≤ q.1) ∧ (∃ q ∈ qs, fd.x = q.1) ∧
        (∀ q ∈ qs, fd.y ≤ q.2.1) ∧ (∃ q ∈ qs, fd.y = q.2.1) ∧
        (∀ q ∈ qs, q.1 + q.2.2.1 ≤ fd.x + fd.width) ∧
        (∃ q ∈ qs, fd.x + fd.width = q.1 + q.2.2.1) ∧
        (∀ q ∈ qs, q.2.1 + q.2.2.2 ≤ fd.y + fd.height) ∧
        (∃ q ∈ qs, fd.y + fd.height = q.2.1 + q.2.2.2)) ∧
    group_bounding_frame [mkItemDict 0 0 10 10, mkItemDict 20 5 10 10] =
      .ok { title := "Group", x := 0, y := 0, width := 30, height := 15 } := by
  constructor
  · intro qs hne
    match qs, hne with
    | q0 :: rest, _ =>
        refine ⟨_, group_bounding_frame_eval q0 rest, rfl, ?_⟩
        have hx : ∀ q ∈ q0 :: rest, (rest.map (fun q => q.1)).foldl min q0.1 ≤ q.1 := by
          intro q hq
          exact foldl_min_le _ _ _ (by
            rcases List.mem_cons.mp hq with h | h
            · subst h; exact List.mem_cons_self _ _
            · exact List.mem_cons_of_mem _ (List.mem_map_of_mem _ h))
        have hxm : ∃ q ∈ q0 :: rest, (rest.map (fun q => q.1)).foldl min q0.1 = q.1 := by
          have := foldl_min_mem (rest.map (fun q => q.1)) q0.1
          rcases List.mem_cons.mp this with h | h
          · exact ⟨q0, List.mem_cons_self _ _, h⟩
          · rcases List.mem_map.mp h with ⟨q, hq, hqe⟩
            exact ⟨q, List.mem_cons_of_mem _ hq, hqe.symm⟩
        have hy : ∀ q ∈ q0 :: rest, (rest.map (fun q => q.2.1)).foldl min q0.2.1 ≤ q.2.1 := by
          intro q hq
          exact foldl_min_le _ _ _ (by
            rcases List.mem_cons.mp hq with h | h
            · subst h; exact List.mem_cons_self _ _
            · exact List.mem_cons_of_mem _ (List.mem_map_of_mem _ h))
        have hym : ∃ q ∈ q0 :: rest, (rest.map (fun q => q.2.1)).foldl min q0.2.1 = q.2.1 := by
          have := foldl_min_mem (rest.map (fun q => q.2.1)) q0.2.1
          rcases List.mem_cons.mp this with h | h
          · exact ⟨q0, List.mem_cons_self _ _, h⟩
          · rcases List.mem_map.mp h with ⟨q, hq, hqe⟩
            exact ⟨q, List.mem_cons_of_mem _ hq, hqe.symm⟩
        have hr : ∀ q ∈ q0 :: rest, q.1 + q.2.2.1 ≤
            (rest.map (fun q => q.1 + q.2.2.1)).foldl max (q0.1 + q0.2.2.1) := by
          intro q hq
          exact foldl_max_ge _ _ _ (by
            rcases List.mem_cons.mp hq with h | h
            · subst h; exact List.mem_cons_self _ _
            · exact List.mem_cons_of_mem _ (List.mem_map_of_mem _ h))
        have hrm : ∃ q ∈ q0 :: rest,
            (rest.map (fun q => q.1 + q.2.2.1)).foldl max (q0.1 + q0.2.2.1) =
              q.1 + q.2.2.1 := by
          have := foldl_max_mem (rest.map (fun q => q.1 + q.2.2.1)) (q0.1 + q0.2.2.1)
          rcases List.mem_cons.mp this with h | h
          · exact ⟨q0, List.mem_cons_self _ _, h⟩
          · rcases List.mem_map.mp h with ⟨q, hq, hqe⟩
            exact ⟨q, List.mem_cons_of_mem _ hq, hqe.symm⟩
        have hb : ∀ q ∈ q0 :: rest, q.2.1 + q.2.2.2 ≤
            (rest.map (fun q => q.2.1 + q.2.2.2)).foldl max (q0.2.1 + q0.2.2.2) := by
          intro q hq
          exact foldl_max_ge _ _ _ (by
            rcases List.mem_cons.mp hq with h | h
            · subst h; exact List.mem_cons_self _ _
            · exact List.mem_cons_of_mem _ (List.mem_map_of_mem _ h))
        have hbm : ∃ q ∈ q0 :: rest,
            (rest.map (fun q => q.2.1 + q.2.2.2)).foldl max (q0.2.1 + q0.2.2.2) =
              q.2.1 + q.2.2.2 := by
          have := foldl_max_mem (rest.map (fun q => q.2.1 + q.2.2.2)) (q0.2.1 + q0.2.2.2)
          rcases List.mem_cons.mp this with h | h
          · exact ⟨q0, List.mem_cons_self _ _, h⟩
          · rcases List.mem_map.mp h with ⟨q, hq, hqe⟩
            exact ⟨q, List.mem_cons_of_mem _ hq, hqe.symm⟩
        refine ⟨hx, hxm, hy, hym, ?_, ?_, ?_, ?_⟩
        · intro q hq
          have := hr q hq
          simpa [add_sub_cancel] using this
        · obtain ⟨q, hq, hqe⟩ := hrm
          exact ⟨q, hq, by simpa [add_sub_cancel] using hqe⟩
        · intro q hq
          have := hb q hq
          simpa [add_sub_cancel] using this
        · obtain ⟨q, hq, hqe⟩ := hbm
          exact ⟨q, hq, by simpa [add_sub_cancel] using hqe⟩
  · have h := group_bounding_frame_eval ((0 : Rat), (0 : Rat), (10 : Rat), (10 : Rat))
      [(20, 5, 10, 10)]
    rw [show ([mkItemDict 0 0 10 10, mkItemDict 20 5 10 10] : List PyVal) =
        ([((0 : Rat), (0 : Rat), (10 : Rat), (10 : Rat)), (20, 5, 10, 10)].map
          (fun q => mkItemDict q.1 q.2.1 q.2.2.1 q.2.2.2)) from rfl, h]
    norm_num [List.foldl]

/-- C6 witness: the universal bounding-box property applied at the claim's
two concrete items. -/
theorem C6_group_bounding_box_witness :
    ∃ fd, group_bounding_frame
        ([((0 : Rat), (0 : Rat), (10 : Rat), (10 : Rat)), (20, 5, 10, 10)].map
          (fun q => mkItemDict q.1 q.2.1 q.2.2.1 q.2.2.2)) = .ok fd ∧
      fd.title = "Group" ∧
      (∀ q ∈ [((0 : Rat), (0 : Rat), (10 : Rat), (10 : Rat)), (20, 5, 10, 10)], fd.x ≤ q.1) ∧
      (∃ q ∈ [((0 : Rat), (0 : Rat), (10 : Rat), (10 : Rat)), (20, 5, 10, 10)], fd.x = q.1) ∧
      (∀ q ∈ [((0 : Rat), (0 : Rat), (10 : Rat), (10 : Rat)), (20, 5, 10, 10)], fd.y ≤ q.2.1) ∧
      (∃ q ∈ [((0 : Rat), (0 : Rat), (10 : Rat), (10 : Rat)), (20, 5, 10, 10)], fd.y = q.2.1) ∧
      (∀ q ∈ [((0 : Rat), (0 : Rat), (10 : Rat), (10 : Rat)), (20, 5, 10, 10)],
        q.1 + q.2.2.1 ≤ fd.x + fd.width) ∧
      (∃ q ∈ [((0 : Rat), (0 : Rat), (10 : Rat), (10 : Rat)), (20, 5, 10, 10)],
        fd.x + fd.width = q.1 + q.2.2.1) ∧
      (∀ q ∈ [((0 : Rat), (0 : Rat), (10 : Rat), (10 : Rat)), (20, 5, 10, 10)],
        q.2.1 + q.2.2.2 ≤ fd.y + fd.height) ∧
      (∃ q ∈ [((0 : Rat), (0 : Rat), (10 : Rat), (10 : Rat)), (20, 5, 10, 10)],
        fd.y + fd.height = q.2.1 + q.2.2.2) :=
  C6_group_bounding_box.1 [(0, 0, 10, 10), (20, 5, 10, 10)] (by decide)

/-! ## C10 -/

theorem create_shape_invalid (s : Session) (es : List (String × PyVal))
    (h : (pyTruthy ((es.lookup "board_id").getD .none) &&
          pyTruthy ((es.lookup "shape_type").getD .none) &&
          pyIsNotNone ((es.lookup "x").getD .none) &&
          pyIsNotNone ((es.lookup "y").getD .none) &&
          pyTruthy ((es.lookup "width").getD .none) &&
          pyTruthy ((es.lookup "height").getD .none)) = false) :
    shape_handle_tool_call (.str "create_shape") (.dict es) s =
      .ok (errDict "board_id, shape_type, x, y, width, and height are required") := by
  rw [shape_handle_tool_call]
  have hc : pyEq (.str "create_shape") (.str "create_shape") = true := rfl
  rw [hc]
  simp only [if_true, pyGet]
  rw [h]
  rfl

/-- C10: the create_shape handler validates board_id, shape_type, width and
height by truthiness but x and y only against None — so width=0, height=0,
an empty board_id or an empty shape_type each yield the `{'error': ...}`
payload for EVERY session (in particular sessions whose api oracle would
succeed: the client is never invoked), while x=0 and y=0 pass validation and
the call reaches the client, succeeding on a live session. -/
theorem C10_create_shape_validation :
    (∀ (s : Session) (es : List (String × PyVal)),
        es.lookup "width" = some (.int 0) ∨ es.lookup "width" = some (.float 0) →
        shape_handle_tool_call (.str "create_shape") (.dict es) s =
          .ok (errDict "board_id, shape_type, x, y, width, and height are required")) ∧
    (∀ (s : Session) (es : List (String × PyVal)),
        es.lookup "height" = some (.int 0) ∨ es.lookup "height" = some (.float 0) →
        shape_handle_tool_call (.str "create_shape") (.dict es) s =
          .ok (errDict "board_id, shape_type, x, y, width, and height are required")) ∧
    (∀ (s : Session) (es : List (String × PyVal)),
        es.lookup "board_id" = some (.str "") →
        shape_handle_tool_call (.str "create_shape") (.dict es) s =
          .ok (errDict "board_id, shape_type, x, y, width, and height are required")) ∧
    (∀ (s : Session) (es : List (String × PyVal)),
        es.lookup "shape_type" = some (.str "") →
        shape_handle_tool_call (.str "create_shape") (.dict es) s =
          .ok (errDict "board_id, shape_type, x, y, width, and height are required")) ∧
    shape_handle_tool_call (.str "create_shape")
        (.dict [("board_id", .str "b"), ("shape_type", .str "rectangle"),
                ("x", .int 0), ("y", .int 0), ("width", .int 10), ("height", .int 10)])
        liveSession =
      .ok (.dict [("success", .bool true), ("shape", .dict [("id", .str "shape-1")])]) := by
  refine ⟨?_, ?_, ?_, ?_, rfl⟩
  · intro s es h
    apply create_shape_invalid
    rcases h with h | h <;> rw [h] <;> simp [pyTruthy]
  · intro s es h
    apply create_shape_invalid
    rcases h with h | h <;> rw [h] <;> simp [pyTruthy]
  · intro s es h
    apply create_shape_invalid
    rw [h]
    simp [pyTruthy]
  · intro s es h
    apply create_shape_invalid
    rw [h]
    simp [pyTruthy]

/-- C10 witness: width=0 rejected on the live session whose oracle would
succeed, and an empty board_id rejected likewise. -/
theorem C10_create_shape_validation_witness :
    shape_handle_tool_call (.str "create_shape")
        (.dict [("board_id", .str "b"), ("shape_type", .str "rectangle"),
                ("x", .int 0), ("y", .int 0), ("width", .int 0), ("height", .int 10)])
        liveSession =
      .ok (errDict "board_id, shape_type, x, y, width, and height are required") ∧
    shape_handle_tool_call (.str "create_shape")
        (.dict [("board_id", .str ""), ("shape_type", .str "rectangle"),
                ("x", .int 0), ("y", .int 0), ("width", .int 10), ("height", .int 10)])
        liveSession =
      .ok (errDict "board_id, shape_type, x, y, width, and height are required") :=
  ⟨C10_create_shape_validation.1 liveSession _ (Or.inl rfl),
   C10_create_shape_validation.2.2.1 liveSession _ rfl⟩

/-! ## C7 -/

/-- C7 counterexample: the claim says the update payload contains EXACTLY the
fields explicitly supplied.  Two concrete refutations on the code:
(a) supplying only fillColor yields a style payload that also carries
fill_opacity "1.0" (a field never supplied — _format_style lines 181-182);
(b) supplying width without height raises KeyError('height') inside
update_shape's geometry block (line 264), so no payload is sent at all and
the handler surfaces `{'error': "'height'"}`. -/
theorem C7_update_payload_counterexample :
    build_update_data Option.none Option.none
        (some { fillColor := some (.str "#FF0000") }) .none =
      .ok { position := Option.none, geometry := Option.none, content := Option.none,
            style := some { fill_color := some (.str "#FF0000"),
                            fill_opacity := some "1.0" } } ∧
    shape_handle_tool_call (.str "update_shape")
        (.dict [("board_id", .str "b"), ("item_id", .str "i"), ("width", .float 5)])
        liveSession = .ok (errDict ("'" ++ "height" ++ "'")) :=
  ⟨rfl, rfl⟩

/-- A single optional argument entry of a tools/call arguments dict. -/
def optEntry (k : String) (o : Option PyVal) : List (String × PyVal) :=
  match o with
  | some v => [(k, v)]
  | Option.none => []

/-- update_shape arguments carrying only position/geometry fields. -/
def updArgsPG (b i : String) (x y w h : Option Rat) : PyVal :=
  .dict ([("board_id", .str b), ("item_id", .str i)]
    ++ optEntry "x" (x.map PyVal.float) ++ optEntry "y" (y.map PyVal.float)
    ++ optEntry "width" (w.map PyVal.float) ++ optEntry "height" (h.map PyVal.float))

/-- update_shape arguments carrying only style fields. -/
def updArgsStyle (b i : String) (fc bc : Option String) (bw : Option Rat) : PyVal :=
  .dict ([("board_id", .str b), ("item_id", .str i)]
    ++ optEntry "fillColor" (fc.map PyVal.str) ++ optEntry "borderColor" (bc.map PyVal.str)
    ++ optEntry "borderWidth" (bw.map PyVal.float))

/-- update_shape arguments carrying only the content field. -/
def updArgsContent (b i : String) (ct : Option String) : PyVal :=
  .dict ([("board_id", .str b), ("item_id", .str i)]
    ++ optEntry "content" (ct.map PyVal.str))

/-- The handler outcome around a payload actually sent to the vendor: the
oracle is called with exactly `upd`; its failure (or a normalization failure)
becomes `{'error': ...}`, its success the `{'success': ..., 'shape': ...}`
envelope. -/
def updateCallResult (api : ApiOracle) (b i : String) (upd : UpdateData) :
    Except PyErr PyVal :=
  match api.update_shape_item (.str b) (.str i) upd with
  | .error e => .ok (errDict e.msg)
  | .ok r =>
      match convert_to_dict r with
      | .error e => .ok (errDict e.msg)
      | .ok rc => .ok (.dict [("success", .bool true), ("shape", rc)])


/-- Commutation of the handler's try-wrap with the client's internal match
chain: both sides case on the oracle result and then on normalization. -/
theorem updateMatchComm (res : Except PyErr PyVal) :
    (match (match res with
            | Except.error e => (Except.error e : Except PyErr PyVal)
            | Except.ok r => convert_to_dict r) with
     | Except.error e => (Except.ok (errDict e.msg) : Except PyErr PyVal)
     | Except.ok rc => Except.ok (PyVal.dict [("success", PyVal.bool true), ("shape", rc)])) =
    (match res with
     | Except.error e => (Except.ok (errDict e.msg) : Except PyErr PyVal)
     | Except.ok r =>
        match convert_to_dict r with
        | Except.error e => (Except.ok (errDict e.msg) : Except PyErr PyVal)
        | Except.ok rc => Except.ok (PyVal.dict [("success", PyVal.bool true), ("shape", rc)])) := by
  cases res with
  | error e => rfl
  | ok r => rfl

/-- C7 amended: the payload sent to the vendor contains exactly the fields
explicitly supplied, with two code-forced deviations — width and height must
be supplied together (one without the other raises KeyError and no payload is
sent), and supplying a fill or border color also sets the paired opacity to
"1.0".  Position and geometry are independently optional: an x/y pair (or a
single coordinate) may be supplied without geometry and vice versa; content
and style are absent when unsupplied. -/
theorem C7_update_partial_amended :
    (∀ (s : Session) (api : ApiOracle), get_api s = .ok api →
      ∀ (b i : String), b ≠ "" → i ≠ "" →
      ∀ x y w h : Option Rat,
        shape_handle_tool_call (.str "update_shape") (updArgsPG b i x y w h) s =
          (match w, h with
           | some _, Option.none => .ok (errDict ("'" ++ "height" ++ "'"))
           | Option.none, some _ => .ok (errDict ("'" ++ "width" ++ "'"))
           | ww, hh =>
               updateCallResult api b i
                 { position := if x.isSome || y.isSome then some (x, y) else Option.none
                   geometry := match ww, hh with
                               | some wq, some hq => some (wq, hq)
                               | _, _ => Option.none
                   content := Option.none
                   style := Option.none })) ∧
    (∀ (s : Session) (api : ApiOracle), get_api s = .ok api →
      ∀ (b i : String), b ≠ "" → i ≠ "" →
      ∀ (fc bc : Option String) (bw : Option Rat), fc ≠ some "" → bc ≠ some "" →
        shape_handle_tool_call (.str "update_shape") (updArgsStyle b i fc bc bw) s =
          updateCallResult api b i
            { position := Option.none
              geometry := Option.none
              content := Option.none
              style :=
                if fc.isSome || bc.isSome || bw.isSome then
                  some { fill_color := fc.map PyVal.str
                         fill_opacity := if fc.isSome then some "1.0" else Option.none
                         border_color := bc.map PyVal.str
                         border_opacity := if bc.isSome then some "1.0" else Option.none
                         border_width := bw }
                else Option.none }) ∧
    (∀ (s : Session) (api : ApiOracle), get_api s = .ok api →
      ∀ (b i : String), b ≠ "" → i ≠ "" →
      ∀ ct : Option String,
        shape_handle_tool_call (.str "update_shape") (updArgsContent b i ct) s =
          updateCallResult api b i
            { position := Option.none
              geometry := Option.none
              content := ct.map PyVal.str
              style := Option.none }) := by
  have e2 : pyEq (.str "update_shape") (.str "create_shape") = false := rfl
  have e3 : pyEq (.str "update_shape") (.str "update_shape") = true := rfl
  refine ⟨?_, ?_, ?_⟩
  · intro s api hapi b i hb hi x y w h
    have hb' : (b != "") = true := by simpa using hb
    have hi' : (i != "") = true := by simpa using hi
    rcases x with _ | qx <;> rcases y with _ | qy <;>
      rcases w with _ | qw <;> rcases h with _ | qh <;>
      simp [shape_handle_tool_call, updArgsPG, optEntry, pyGet, e2, e3, pyTruthy,
        pyIsNotNone, pyFloat, update_shape, hapi, build_update_data, build_style_dict,
        styleInTruthy, format_style, updateCallResult, List.lookup, hb', hi', updateMatchComm]
  · intro s api hapi b i hb hi fc bc bw hfc hbc
    have hb' : (b != "") = true := by simpa using hb
    have hi' : (i != "") = true := by simpa using hi
    rcases fc with _ | t <;> rcases bc with _ | u <;> rcases bw with _ | qb
    all_goals
      first
      | (have ht' : (t != "") = true := by
            simpa using fun hh : t = "" => hfc (by rw [hh])
         have hu' : (u != "") = true := by
            simpa using fun hh : u = "" => hbc (by rw [hh])
         simp [shape_handle_tool_call, updArgsStyle, optEntry, pyGet, e2, e3, pyTruthy,
           pyIsNotNone, pyFloat, update_shape, hapi, build_update_data, build_style_dict,
           styleInTruthy, format_style, updateCallResult, List.lookup, hb', hi', ht', hu', updateMatchComm])
      | (have ht' : (t != "") = true := by
            simpa using fun hh : t = "" => hfc (by rw [hh])
         simp [shape_handle_tool_call, updArgsStyle, optEntry, pyGet, e2, e3, pyTruthy,
           pyIsNotNone, pyFloat, update_shape, hapi, build_update_data, build_style_dict,
           styleInTruthy, format_style, updateCallResult, List.lookup, hb', hi', ht', updateMatchComm])
      | (have hu' : (u != "") = true := by
            simpa using fun hh : u = "" => hbc (by rw [hh])
         simp [shape_handle_tool_call, updArgsStyle, optEntry, pyGet, e2, e3, pyTruthy,
           pyIsNotNone, pyFloat, update_shape, hapi, build_update_data, build_style_dict,
           styleInTruthy, format_style, updateCallResult, List.lookup, hb', hi', hu', updateMatchComm])
      | simp [shape_handle_tool_call, updArgsStyle, optEntry, pyGet, e2, e3, pyTruthy,
          pyIsNotNone, pyFloat, update_shape, hapi, build_update_data, build_style_dict,
          styleInTruthy, format_style, updateCallResult, List.lookup, hb', hi', updateMatchComm]
  · intro s api hapi b i hb hi ct
    have hb' : (b != "") = true := by simpa using hb
    have hi' : (i != "") = true := by simpa using hi
    rcases ct with _ | c <;>
      simp [shape_handle_tool_call, updArgsContent, optEntry, pyGet, e2, e3, pyTruthy,
        pyIsNotNone, pyFloat, update_shape, hapi, build_update_data, build_style_dict,
        styleInTruthy, format_style, updateCallResult, List.lookup, hb', hi', updateMatchComm]

/-- C7 witness: the position-only characterization at a concrete live
session, showing a supplied x without y or geometry reaching the vendor as
position {x} alone. -/
theorem C7_update_partial_witness :
    shape_handle_tool_call (.str "update_shape") (updArgsPG "b" "i" (some 1) Option.none
        Option.none Option.none) liveSession =
      updateCallResult okApi "b" "i"
        { position := some (some 1, Option.none)
          geometry := Option.none
          content := Option.none
          style := Option.none } :=
  C7_update_partial_amended.1 liveSession okApi rfl "b" "i" (by decide) (by decide)
    (some 1) Option.none Option.none Option.none

/-! ## C2 -/

/-- A tools/call request for create_shape with id 1. -/
def createShapeCallReq : PyVal :=
  .dict [("jsonrpc", .str "2.0"), ("id", .int 1), ("method", .str "tools/call"),
         ("params", .dict [("name", .str "create_shape"),
                           ("arguments", .dict [("board_id", .str "b")])])]

/-- An initialize request with id 2. -/
def initializeReq : PyVal :=
  .dict [("jsonrpc", .str "2.0"), ("id", .int 2), ("method", .str "initialize")]

/-- C2 counterexample: the claim says a missing client identifier makes the
process fail fast AT STARTUP with a fatal error.  In the code nothing
validates configuration at startup: the first tool call constructs the
client lazily, the ValueError is caught at the dispatch boundary and
answered as an ordinary isError tool RESULT (carrying the descriptive
message), and the loop goes on serving later requests — here the same
invalid-config process answers a subsequent initialize normally.  No
termination occurs. -/
theorem C2_config_not_fatal_counterexample :
    mainStep badCfgEnv (Option.none, .absent) (.parsed createShapeCallReq) =
      ((Option.none, .absent),
       some (.dict [("jsonrpc", .str "2.0"), ("id", .int 1),
         ("result", text_content_envelope
           "Error executing tool create_shape: MIRO_CLIENT_ID environment variable is required"
           true)])) ∧
    mainStep badCfgEnv (Option.none, .absent) (.parsed initializeReq) =
      ((Option.none, .absent),
       some (.dict [("jsonrpc", .str "2.0"), ("id", .int 2),
         ("result", handle_initialize)])) :=
  ⟨rfl, rfl⟩

/-- C2 amended: validate_config raises the documented descriptive errors when
the client identifier or secret is absent or empty; but validation runs
lazily inside the first tool call, where the failure is caught and surfaced
as an isError tool response (the session stays uncached); and any exception
escaping request processing is converted by the outer handler to a -32603
response rather than terminating the loop — no request failure, configuration
failure included, is fatal. -/
theorem C2_config_error_caught_amended :
    (∀ cfg : Config, optStrTruthy cfg.MIRO_CLIENT_ID = false →
        validate_config cfg =
          .error ⟨.valueError, "MIRO_CLIENT_ID environment variable is required"⟩) ∧
    (∀ cfg : Config, optStrTruthy cfg.MIRO_CLIENT_ID = true →
        optStrTruthy cfg.MIRO_CLIENT_SECRET = false →
        validate_config cfg =
          .error ⟨.valueError, "MIRO_CLIENT_SECRET environment variable is required"⟩) ∧
    (∀ (env : Env) (fs : FileState) (args : PyVal) (e : PyErr),
        validate_config env.cfg = .error e →
        handle_tools_call env (Option.none, fs) (.str "create_shape") args =
          ((Option.none, fs),
           text_content_envelope ("Error executing tool create_shape: " ++ e.msg) true)) ∧
    (∀ (env : Env) (st : Option Session × FileState) (req : PyVal)
        (st2 : Option Session × FileState) (e : PyErr),
        process_request env st req = (st2, .error e) →
        mainStep env st (.parsed req) =
          (st2, some (.dict [("jsonrpc", .str "2.0"), ("id", .none),
            ("error", .dict [("code", .int (-32603)),
                             ("message", .str ("Internal error: " ++ e.msg))])]))) := by
  refine ⟨?_, ?_, ?_, ?_⟩
  · intro cfg h
    rw [validate_config, h]
    rfl
  · intro cfg h1 h2
    rw [validate_config, h1, h2]
    rfl
  · intro env fs args e hval
    rw [handle_tools_call]
    simp only [MiroClient_init, hval]
    rfl
  · intro env st req st2 e hproc
    rw [mainStep, hproc]

/-- C2 witness: the amended conjuncts at the concrete invalid configuration
and at the concrete non-object request whose processing raises. -/
theorem C2_config_error_caught_witness :
    validate_config badCfg =
      .error ⟨.valueError, "MIRO_CLIENT_ID environment variable is required"⟩ ∧
    handle_tools_call badCfgEnv (Option.none, .absent) (.str "create_shape") (.dict []) =
      ((Option.none, .absent),
       text_content_envelope
         "Error executing tool create_shape: MIRO_CLIENT_ID environment variable is required"
         true) ∧
    mainStep badCfgEnv (Option.none, .absent) (.parsed (.int 42)) =
      ((Option.none, .absent),
       some (.dict [("jsonrpc", .str "2.0"), ("id", .none),
         ("error", .dict [("code", .int (-32603)),
           ("message", .str ("Internal error: " ++
             ("object has no attribute " ++ "'" ++ "get" ++ "'")))])])) :=
  ⟨C2_config_error_caught_amended.1 badCfg rfl,
   C2_config_error_caught_amended.2.2.1 badCfgEnv .absent (.dict [])
     ⟨.valueError, "MIRO_CLIENT_ID environment variable is required"⟩ rfl,
   C2_config_error_caught_amended.2.2.2 badCfgEnv (Option.none, .absent) (.int 42)
     (Option.none, .absent) ⟨.attributeError, "object has no attribute " ++ "'" ++ "get" ++ "'"⟩
     rfl⟩

/-! ## C8 -/

/-- C8 counterexample: the claim says the -32700 parse-error response is the
ONE case where a response carries a null id.  The outer `except Exception`
handler also answers with a null id: the line `42` parses fine, but
`request.get('method')` raises AttributeError, and the server emits a -32603
response whose id is null. -/
theorem C8_null_id_counterexample :
    mainStep badCfgEnv (Option.none, .absent) (.parsed (.int 42)) =
      ((Option.none, .absent),
       some (.dict [("jsonrpc", .str "2.0"), ("id", .none),
         ("error", .dict [("code", .int (-32603)),
           ("message", .str ("Internal error: " ++
             ("object has no attribute " ++ "'" ++ "get" ++ "'")))])])) := rfl

/-- C8 amended: every input line that fails JSON parsing is answered with a
-32700 response carrying a null id; and every response produced by
process_request itself carries the request's non-null id — so null-id
responses arise exactly from the parse-error path and from the outer
internal-error (-32603) path, not from ordinary notification handling. -/
theorem C8_parse_error_response_amended :
    (∀ (env : Env) (st : Option Session × FileState) (m : String),
      mainStep env st (.malformed m) =
        (st, some (.dict [("jsonrpc", .str "2.0"), ("id", .none),
          ("error", .dict [("code", .int (-32700)),
                           ("message", .str ("Parse error: " ++ m))])]))) ∧
    (∀ (env : Env) (st : Option Session × FileState) (req : PyVal)
        (st2 : Option Session × FileState) (r : PyVal),
      process_request env st req = (st2, .ok (some r)) →
      ∃ idv, pyIndex r "id" = .ok idv ∧ idv ≠ PyVal.none) := by
  constructor
  · intro env st m
    rfl
  · intro env st req st2 r hproc
    rw [process_request] at hproc
    repeat' split at hproc
    all_goals obtain ⟨h1, h2⟩ := (Prod.mk.injEq _ _ _ _).mp hproc
    all_goals
      first
      | (injection h2
         done)
      | (injection h2 with h3
         first
         | (injection h3
            done)
         | (injection h3 with h4
            subst h4
            refine ⟨_, rfl, ?_⟩
            intro hh
            simp_all [pyIsNotNone]))

/-- C8 witness: the -32700 null-id response at a concrete malformed line, and
the non-null id of a concrete processed response. -/
theorem C8_parse_error_response_witness :
    mainStep badCfgEnv (Option.none, .absent)
        (.malformed "Expecting value: line 1 column 1 (char 0)") =
      ((Option.none, .absent),
       some (.dict [("jsonrpc", .str "2.0"), ("id", .none),
         ("error", .dict [("code", .int (-32700)),
           ("message", .str ("Parse error: " ++
             "Expecting value: line 1 column 1 (char 0)"))])])) ∧
    ∃ idv, pyIndex (.dict [("jsonrpc", .str "2.0"), ("id", .int 2),
        ("result", handle_initialize)]) "id" = .ok idv ∧ idv ≠ PyVal.none :=
  ⟨C8_parse_error_response_amended.1 badCfgEnv (Option.none, .absent) _,
   C8_parse_error_response_amended.2 badCfgEnv (Option.none, .absent) initializeReq
     (Option.none, .absent) _ rfl⟩
